import Mathlib

/-!
# pgskipper-operator-core: the resource specification builder

A shallow embedding of `pkg/storage/storage.go`, `pkg/reconciler/backup.go` and
`pkg/reconciler/monitoring.go` (with the parts of `api/v1/types.go` and
`pkg/util/util.go` they use) and the properties of `NewPvc`, `getAccessModes`,
`GetConfigMapByName`, `Merge`, `NewBackupDaemonDeployment` and
`NewMonitoringDeployment`.

Modelling conventions

* A Go runtime panic is a value of `Fault`; a function that can panic returns
  `Except Fault _`.
* Go `int` is 64 bits wide: `idx - 1` is computed with `wrapInt`.
* A Go `string` is a Lean `String`; a slice is a `List` (a nil slice and an
  empty slice both have length 0, the only thing `NewPvc` observes of them);
  `Storage.Nodes` is tested against nil by the callers of the package, so it
  is an `Option`.
* A pointer is an `Option` (nil is `none`).
* A `map[string]string` is the list of its entries, no key twice (`mapWellFormed`);
  assignment is `mapSet`, lookup is `mapGet`; statements about maps are about
  lookups, since the iteration order of a Go map is not specified.
* The Kubernetes records `v1.Affinity`, `v1.PodSecurityContext` and
  `v1.ResourceRequirements` are passed through untouched; they are type
  parameters `A`, `S` and `R`.
* `ioutil.ReadFile` reads a file system `String → Except String String` passed
  explicitly.
* `logger.Info` is modelled by the list of emitted messages, returned next to
  the value.
* `os.Getenv` is a function `String → String` passed explicitly.
* `resource.MustParse` belongs to the Kubernetes API machinery; it is a
  parameter `parse : String → Option Q` (`none` when `MustParse` panics),
  for an arbitrary type `Q` of quantities.
-/

namespace Pgskipper

/-! ## Go runtime -/

/-- Runtime panics the embedded code can raise. -/
inductive Fault where
  /-- Slice index out of range: the index and the length of the slice. -/
  | indexOutOfRange (index : Int) (len : Nat)
  /-- Panic of `resource.MustParse` on an unparseable quantity. -/
  | mustParse (input : String)
  /-- Dereference of a nil pointer. -/
  | nilDereference
  deriving DecidableEq, Repr

/-- Smallest value of a Go `int` (64 bit). -/
def minInt : Int := -(2 ^ 63)

/-- Largest value of a Go `int` (64 bit). -/
def maxInt : Int := 2 ^ 63 - 1

/-- The integer is a value of the Go type `int`. -/
def isInt (x : Int) : Prop := minInt ≤ x ∧ x ≤ maxInt

instance (x : Int) : Decidable (isInt x) := by
  unfold isInt
  infer_instance

/-- Two's complement wrap-around of 64-bit integer arithmetic. -/
def wrapInt (x : Int) : Int := (x + 2 ^ 63) % 2 ^ 64 - 2 ^ 63

/-- Slice indexing `xs[i]`: panics unless `0 ≤ i < len(xs)`. -/
def index {α : Type} (xs : List α) (i : Int) : Except Fault α :=
  if 0 ≤ i then
    match xs[i.toNat]? with
    | some x => .ok x
    | none => .error (.indexOutOfRange i xs.length)
  else .error (.indexOutOfRange i xs.length)

/-- Pieces of a character sequence between the occurrences of `sep`. -/
def splitChars (sep : Char) : List Char → List (List Char)
  | [] => [[]]
  | c :: cs =>
    if c = sep then [] :: splitChars sep cs
    else
      match splitChars sep cs with
      | [] => [[c]]
      | p :: ps => (c :: p) :: ps

/-- Go `strings.Split(s, sep)` for a separator of one ASCII character: the substrings
between the separators, one more than there are separators. -/
def stringsSplit (s : String) (sep : Char) : List String :=
  (splitChars sep s.data).map String.mk

/-- Pointer dereference `*p`: panics on nil. -/
def deref {α : Type} (p : Option α) : Except Fault α :=
  match p with
  | some x => .ok x
  | none => .error .nilDereference

/-- Go `strconv.Itoa`: the decimal digits of the integer, after a minus sign when it is
negative. -/
def Itoa : Int → String
  | .ofNat m => Nat.repr m
  | .negSucc m => "-" ++ Nat.repr (m + 1)

/-- Go `strconv.FormatBool`: "true" or "false". -/
def FormatBool (b : Bool) : String := if b then "true" else "false"

/-- A Go `map[string]string`: the list of its entries, no key twice; the nil map and the
empty map are both `[]`. -/
abbrev StringMap := List (String × String)

/-- Map assignment `m[k] = v`: the entry of `k` is replaced when there is one, added
otherwise. -/
def mapSet : StringMap → String → String → StringMap
  | [], k, v => [(k, v)]
  | (k', v') :: rest, k, v =>
    if k' = k then (k, v) :: rest else (k', v') :: mapSet rest k v

/-- Map lookup `m[k]` with the presence flag: `none` when the key is absent. -/
def mapGet : StringMap → String → Option String
  | [], _ => none
  | (k', v) :: rest, k => if k' = k then some v else mapGet rest k

/-- The entries of the map have pairwise distinct keys. -/
def mapWellFormed (m : StringMap) : Prop := (m.map Prod.fst).Nodup

instance (m : StringMap) : Decidable (mapWellFormed m) := by
  unfold mapWellFormed
  infer_instance

/-- Go `ioutil.ReadFile` on a file system in which reading a path gives either the content
or an error: the bytes and the error; on an error no bytes are returned. -/
def ReadFile (fs : String → Except String String) (path : String) : String × Option String :=
  match fs path with
  | .ok content => (content, none)
  | .error e => ("", some e)

/-- Process environment as seen by `os.Getenv`: unset variables read as `""`. -/
abbrev Env := String → String

/-! ## `api/v1/types.go` -/

/-- Storage describes the storage that will be used (`types.Storage`). -/
structure Storage where
  Size : String := ""
  Type_ : String := ""
  StorageClass : String := ""
  Volumes : List String := []
  Nodes : Option (List String) := none
  Selectors : List String := []
  AccessModes : List String := []
  deriving DecidableEq, Repr

/-- Record `types.S3Storage`. -/
structure S3Storage where
  Url : String := ""
  AccessKeyId : String := ""
  SecretAccessKey : String := ""
  Bucket : String := ""
  Prefix : String := ""
  UntrustedCert : Bool := false
  Region : String := ""
  deriving DecidableEq, Repr

/-- Record `types.ExternalPv`. -/
structure ExternalPv where
  Name : String := ""
  Capacity : String := ""
  StorageClass : String := ""
  deriving DecidableEq, Repr

/-- Record `types.BackupDaemon`, over the types `A` of `v1.Affinity`, `S` of
`v1.PodSecurityContext` and `R` of `v1.ResourceRequirements`, which the builders pass through
without looking inside. Modelled from the spec: `types.go` does not declare the fields
`CompressionLevel`, `Encryption`, `RetainArchiveSettings` and `BackupTimeout` that
`NewBackupDaemonDeployment` reads; they are given the types `strconv.Itoa` and
`strconv.FormatBool` take, `int` and `bool`. -/
structure BackupDaemon (A S R : Type) where
  Resources : Option R := none
  DockerImage : String := ""
  Affinity : A
  Storage : Storage := {}
  PgHost : String := ""
  EvictionPolicy : String := ""
  BackupSchedule : String := ""
  GranularEviction : String := ""
  JobFlag : String := ""
  ConnectTimeout : String := ""
  GranularBackupSchedule : String := ""
  DatabasesToSchedule : String := ""
  WalArchiving : Bool := false
  AllowPrefix : Bool := false
  ExcludedExtensions : String := ""
  UseEvictionPolicyFirst : String := ""
  EvictionBinaryPolicy : String := ""
  ArchiveEvictionPolicy : String := ""
  SecurityContext : S
  PriorityClassName : String := ""
  S3Storage : Option S3Storage := none
  PodLabels : StringMap := []
  ExternalPv : Option ExternalPv := none
  SslMode : String := ""
  CompressionLevel : Int := 0
  Encryption : Bool := false
  RetainArchiveSettings : Bool := false
  BackupTimeout : Int := 0
  deriving DecidableEq, Repr

/-- Record `types.MetricCollector`, over the same pass-through types as `BackupDaemon`. -/
structure MetricCollector (A S R : Type) where
  Resources : Option R := none
  DockerImage : String := ""
  Affinity : A
  InfluxDbHost : String := ""
  InfluxDatabase : String := ""
  MetricsProfile : String := ""
  CollectionInterval : Int := 0
  SecurityContext : S
  TelegrafPluginTimeout : Int := 0
  DevMetricsTimeout : Int := 0
  DevMetricsInterval : Int := 0
  PriorityClassName : String := ""
  OcExecTimeout : Int := 0
  PodLabels : StringMap := []
  SslMode : String := ""
  deriving DecidableEq, Repr

/-! ## Kubernetes API objects (the fields the package sets) -/

/-- The type `corev1.PersistentVolumeAccessMode` is a string type. -/
abbrev PersistentVolumeAccessMode := String

/-- Constant `corev1.ReadWriteOnce`. -/
def ReadWriteOnce : PersistentVolumeAccessMode := "ReadWriteOnce"

/-- Constant `corev1.ReadOnlyMany`. -/
def ReadOnlyMany : PersistentVolumeAccessMode := "ReadOnlyMany"

/-- Constant `corev1.ReadWriteMany`. -/
def ReadWriteMany : PersistentVolumeAccessMode := "ReadWriteMany"

/-- Constant `corev1.ResourceStorage`, the resource name of storage capacity. -/
def ResourceStorage : String := "storage"

/-- Record `metav1.LabelSelector`. -/
structure LabelSelector where
  MatchLabels : List (String × String) := []
  deriving DecidableEq, Repr

/-- Record `metav1.ObjectMeta`. -/
structure ObjectMeta where
  Name : String := ""
  Namespace : String := ""
  Labels : List (String × String) := []
  deriving DecidableEq, Repr

/-- Record `corev1.VolumeResourceRequirements`; a `corev1.ResourceList` maps resource names to
quantities. -/
structure VolumeResourceRequirements (Q : Type) where
  Limits : List (String × Q) := []
  Requests : List (String × Q) := []
  deriving DecidableEq, Repr

/-- Record `corev1.PersistentVolumeClaimSpec`; the defaults are the Go zero value. -/
structure PersistentVolumeClaimSpec (Q : Type) where
  AccessModes : List PersistentVolumeAccessMode := []
  Selector : Option LabelSelector := none
  Resources : VolumeResourceRequirements Q := {}
  VolumeName : String := ""
  StorageClassName : Option String := none
  deriving DecidableEq, Repr

/-- Record `corev1.PersistentVolumeClaim`. -/
structure PersistentVolumeClaim (Q : Type) where
  ObjectMeta : ObjectMeta := {}
  Spec : PersistentVolumeClaimSpec Q := {}
  deriving DecidableEq, Repr

/-- Record `corev1.ConfigMap`. -/
structure ConfigMap where
  ObjectMeta : ObjectMeta := {}
  Data : StringMap := []
  deriving DecidableEq, Repr

/-- Record `corev1.LocalObjectReference`. -/
structure LocalObjectReference where
  Name : String := ""
  deriving DecidableEq, Repr

/-- Record `corev1.SecretKeySelector`. -/
structure SecretKeySelector where
  LocalObjectReference : LocalObjectReference := {}
  Key : String := ""
  deriving DecidableEq, Repr

/-- Record `corev1.ObjectFieldSelector`. -/
structure ObjectFieldSelector where
  FieldPath : String := ""
  deriving DecidableEq, Repr

/-- Record `corev1.EnvVarSource`: a reference the platform resolves later. -/
structure EnvVarSource where
  FieldRef : Option ObjectFieldSelector := none
  SecretKeyRef : Option SecretKeySelector := none
  deriving DecidableEq, Repr

/-- Record `corev1.EnvVar`: one environment binding. -/
structure EnvVar where
  Name : String := ""
  Value : String := ""
  ValueFrom : Option EnvVarSource := none
  deriving DecidableEq, Repr

/-- Record `corev1.PersistentVolumeClaimVolumeSource`. -/
structure PersistentVolumeClaimVolumeSource where
  ClaimName : String := ""
  ReadOnly : Bool := false
  deriving DecidableEq, Repr

/-- Record `corev1.EmptyDirVolumeSource`. -/
structure EmptyDirVolumeSource where
  Medium : String := ""
  deriving DecidableEq, Repr

/-- Record `corev1.ConfigMapVolumeSource`. -/
structure ConfigMapVolumeSource where
  LocalObjectReference : LocalObjectReference := {}
  deriving DecidableEq, Repr

/-- Record `corev1.VolumeSource`: at most one of the pointers is set. -/
structure VolumeSource where
  EmptyDir : Option EmptyDirVolumeSource := none
  PersistentVolumeClaim : Option PersistentVolumeClaimVolumeSource := none
  ConfigMap : Option ConfigMapVolumeSource := none
  deriving DecidableEq, Repr

/-- Record `corev1.Volume`. -/
structure Volume where
  Name : String := ""
  VolumeSource : VolumeSource := {}
  deriving DecidableEq, Repr

/-- Record `corev1.VolumeMount`. -/
structure VolumeMount where
  Name : String := ""
  MountPath : String := ""
  SubPath : String := ""
  deriving DecidableEq, Repr

/-- Record `corev1.ContainerPort`. -/
structure ContainerPort where
  Name : String := ""
  ContainerPort : Int := 0
  deriving DecidableEq, Repr

/-- The type `intstr.IntOrString`. -/
inductive IntOrString where
  | int (value : Int)
  | string (value : String)
  deriving DecidableEq, Repr

/-- Function `intstr.FromInt`. -/
def FromInt (value : Int) : IntOrString := .int value

/-- Record `corev1.HTTPGetAction`. -/
structure HTTPGetAction where
  Path : String := ""
  Port : IntOrString := .int 0
  deriving DecidableEq, Repr

/-- Record `corev1.ProbeHandler`. -/
structure ProbeHandler where
  HTTPGet : Option HTTPGetAction := none
  deriving DecidableEq, Repr

/-- Record `corev1.Probe`. -/
structure Probe where
  ProbeHandler : ProbeHandler := {}
  InitialDelaySeconds : Int := 0
  TimeoutSeconds : Int := 0
  PeriodSeconds : Int := 0
  SuccessThreshold : Int := 0
  FailureThreshold : Int := 0
  deriving DecidableEq, Repr

/-- Record `corev1.Container`, over the type `R` of `corev1.ResourceRequirements`. -/
structure Container (R : Type) where
  Name : String := ""
  Image : String := ""
  Command : List String := []
  Args : List String := []
  Ports : List ContainerPort := []
  Env : List EnvVar := []
  Resources : R
  VolumeMounts : List VolumeMount := []
  LivenessProbe : Option Probe := none
  ReadinessProbe : Option Probe := none
  deriving DecidableEq, Repr

/-- Record `corev1.PodSpec`. -/
structure PodSpec (A S R : Type) where
  Volumes : List Volume := []
  InitContainers : List (Container R) := []
  Containers : List (Container R) := []
  NodeSelector : StringMap := []
  ServiceAccountName : String := ""
  SecurityContext : Option S := none
  Affinity : Option A := none
  PriorityClassName : String := ""
  deriving DecidableEq, Repr

/-- Record `corev1.PodTemplateSpec`. -/
structure PodTemplateSpec (A S R : Type) where
  ObjectMeta : ObjectMeta := {}
  Spec : PodSpec A S R := {}
  deriving DecidableEq, Repr

/-- The type `appsv1.DeploymentStrategyType` is a string type. -/
abbrev DeploymentStrategyType := String

/-- Constant `appsv1.RecreateDeploymentStrategyType`. -/
def RecreateDeploymentStrategyType : DeploymentStrategyType := "Recreate"

/-- Constant `appsv1.RollingUpdateDeploymentStrategyType`. -/
def RollingUpdateDeploymentStrategyType : DeploymentStrategyType := "RollingUpdate"

/-- Record `appsv1.DeploymentStrategy`. -/
structure DeploymentStrategy where
  Type_ : DeploymentStrategyType := ""
  deriving DecidableEq, Repr

/-- Record `appsv1.DeploymentSpec`. -/
structure DeploymentSpec (A S R : Type) where
  Selector : Option LabelSelector := none
  Template : PodTemplateSpec A S R := {}
  Strategy : DeploymentStrategy := {}
  deriving DecidableEq, Repr

/-- Record `appsv1.Deployment`. -/
structure Deployment (A S R : Type) where
  ObjectMeta : ObjectMeta := {}
  Spec : DeploymentSpec A S R := {}
  deriving DecidableEq, Repr

/-! ## `pkg/util/util.go` -/

/-- Function `util.GetNameSpace`: the value of `WATCH_NAMESPACE`. -/
def GetNameSpace (getenv : Env) : String := getenv "WATCH_NAMESPACE"

/-- Function `util.Merge`: a fresh map into which the entries of every argument are written,
argument after argument. -/
def Merge (ms : List StringMap) : StringMap :=
  ms.foldl (fun res m => m.foldl (fun res kv => mapSet res kv.1 kv.2) res) []

/-! ## `pkg/storage/storage.go` -/

/-- Call of `resource.MustParse`: the parsed quantity, or a panic. -/
def MustParse {Q : Type} (parse : String → Option Q) (s : String) : Except Fault Q :=
  match parse s with
  | some q => .ok q
  | none => .error (.mustParse s)

/-- One iteration of the loop of `getAccessModes`: the state is the result slice and the
messages logged so far. -/
def getAccessModesStep (acc : List PersistentVolumeAccessMode × List String) (mode : String) :
    List PersistentVolumeAccessMode × List String :=
  if mode = ReadWriteOnce then (acc.1 ++ [ReadWriteOnce], acc.2)
  else if mode = ReadWriteMany then (acc.1 ++ [ReadWriteMany], acc.2)
  else if mode = ReadOnlyMany then (acc.1 ++ [ReadOnlyMany], acc.2)
  else (acc.1, acc.2 ++ ["Skipping unknown AccessMode: " ++ mode])

/-- Function `getAccessModes`: the access modes and the messages logged. -/
def getAccessModes (accessModes : List String) :
    List PersistentVolumeAccessMode × List String :=
  if accessModes.length = 0 then ([ReadWriteOnce], [])
  else accessModes.foldl getAccessModesStep ([], [])

/-- Function `NewPvc`: the claim and the messages logged, or the panic raised. -/
def NewPvc {Q : Type} (getenv : Env) (parse : String → Option Q) (pvcName : String)
    (storageEntity : Storage) (idx : Int) :
    Except Fault (PersistentVolumeClaim Q × List String) := do
  let (pvcSpec, log) ←
    if storageEntity.Type_ = "provisioned" then do
      let size ← MustParse parse storageEntity.Size
      let (modes, log) := getAccessModes storageEntity.AccessModes
      let pvcSpec : PersistentVolumeClaimSpec Q :=
        { Resources := { Requests := [(ResourceStorage, size)] }
          AccessModes := modes
          StorageClassName := some storageEntity.StorageClass }
      pure (pvcSpec, log)
    else if storageEntity.Type_ = "pv" then do
      let size ← MustParse parse storageEntity.Size
      let (modes, log) := getAccessModes storageEntity.AccessModes
      let pvcSpec : PersistentVolumeClaimSpec Q :=
        { Resources := { Requests := [(ResourceStorage, size)] }
          AccessModes := modes
          StorageClassName := some "" }
      let pvcSpec :=
        if storageEntity.StorageClass ≠ "" then
          { pvcSpec with StorageClassName := some storageEntity.StorageClass }
        else pvcSpec
      if storageEntity.Selectors.length > 0 then do
        let selector ← index storageEntity.Selectors (wrapInt (idx - 1))
        let keyValue := stringsSplit selector '='
        let key ← index keyValue 0
        let value ← index keyValue 1
        pure ({ pvcSpec with Selector := some { MatchLabels := [(key, value)] } }, log)
      else if (storageEntity.Volumes.length : Int) ≥ idx then do
        let volume ← index storageEntity.Volumes (wrapInt (idx - 1))
        pure ({ pvcSpec with VolumeName := volume }, log)
      else
        pure (pvcSpec, log ++ ["The volume for PVC " ++ pvcName ++ " is not specified!!!"])
    else
      pure ({}, [])
  pure ({ ObjectMeta := { Name := pvcName, Namespace := GetNameSpace getenv }
          Spec := pvcSpec }, log)

/-- Function `GetConfigMapByName`: the config map and the messages logged; `fs` is the file
system read by `ioutil.ReadFile`. -/
def GetConfigMapByName (getenv : Env) (fs : String → Except String String)
    (configMapName : String) (configMapKey : String) : ConfigMap × List String :=
  let namespace_ := GetNameSpace getenv
  let filePath := "/opt/operator/" ++ configMapName
  let (bytes, e) := ReadFile fs filePath
  let log := if e ≠ none then ["Failed to read from file"] else []
  ({ ObjectMeta := { Name := configMapName, Namespace := namespace_ }
     Data := [(configMapKey, bytes)] }, log)

/-! ## `pkg/reconciler/backup.go` -/

/-- Variable `BackupDaemonLabels`. -/
def BackupDaemonLabels : StringMap :=
  [("app", "postgres-backup-daemon"), ("name", "postgres-backup-daemon")]

/-- Constant `BackupDaemon` of the package `reconciler`, the name of the deployment. -/
def BackupDaemonName : String := "postgres-backup-daemon"

/-- Function `GetRootSecretName`. -/
def GetRootSecretName (pgClusterName : String) : String :=
  if pgClusterName = "gpdb" then "gpdb-pg-root-credentials" else "postgres-credentials"

/-- Function `GetReplSecretName`. -/
def GetReplSecretName (pgClusterName : String) : String :=
  if pgClusterName = "gpdb" then "gpdb-pg-repl-credentials" else "replicator-credentials"

/-- Function `getExternalBackupVolume`. -/
def getExternalBackupVolume : Volume :=
  { Name := "external-backup-data"
    VolumeSource :=
      { PersistentVolumeClaim :=
          some { ClaimName := "external-postgres-backup-pvc", ReadOnly := false } } }

/-- Function `getExternalBackupVolumeMount`. -/
def getExternalBackupVolumeMount : VolumeMount :=
  { MountPath := "/external/", Name := "external-backup-data" }

/-- An environment binding whose value is read from a key of a secret. -/
def secretEnv (name secret key : String) : EnvVar :=
  { Name := name
    ValueFrom :=
      some { SecretKeyRef := some { LocalObjectReference := { Name := secret }, Key := key } } }

/-- An environment binding whose value is read from a field of the pod. -/
def fieldEnv (name fieldPath : String) : EnvVar :=
  { Name := name, ValueFrom := some { FieldRef := some { FieldPath := fieldPath } } }

/-- The composite literal `&appsv1.Deployment{...}` with which `NewBackupDaemonDeployment`
initialises `deployment`; `pgHost` and `sslMode` are the local variables of that name and
`resources` is the value of `*backupDaemon.Resources`. -/
def backupDaemonDeploymentLiteral {A S R : Type} (getenv : Env)
    (backupDaemon : BackupDaemon A S R) (pgClusterName : String) (serviceAccountName : String)
    (pgHost : String) (sslMode : String) (resources : R) : Deployment A S R :=
    { ObjectMeta :=
        { Name := BackupDaemonName
          Namespace := GetNameSpace getenv
          Labels := Merge [BackupDaemonLabels, backupDaemon.PodLabels] }
      Spec :=
        { Strategy := { Type_ := RecreateDeploymentStrategyType }
          Selector := some { MatchLabels := Merge [BackupDaemonLabels, backupDaemon.PodLabels] }
          Template :=
            { ObjectMeta := { Labels := Merge [BackupDaemonLabels, backupDaemon.PodLabels] }
              Spec :=
                { Volumes :=
                    [{ Name := "backup-data"
                       VolumeSource :=
                        { PersistentVolumeClaim :=
                            some { ClaimName := "postgres-backup-pvc", ReadOnly := false } } }]
                  ServiceAccountName := serviceAccountName
                  Affinity := some backupDaemon.Affinity
                  InitContainers := []
                  Containers :=
                    [{ Name := BackupDaemonName
                       Image := backupDaemon.DockerImage
                       Command := []
                       Args := []
                       Env :=
                        [ secretEnv "POSTGRES_PASSWORD" (GetRootSecretName pgClusterName) "password",
                          secretEnv "POSTGRES_USER" (GetRootSecretName pgClusterName) "username",
                          secretEnv "PGPASSWORD" (GetReplSecretName pgClusterName) "password",
                          { Name := "PG_CLUSTER_NAME", Value := pgClusterName },
                          { Name := "PUBLIC_ENDPOINTS_WORKERS_NUMBER", Value := "2" },
                          { Name := "PRIVATE_ENDPOINTS_WORKERS_NUMBER", Value := "2" },
                          { Name := "ARCHIVE_ENDPOINTS_WORKERS_NUMBER", Value := "2" },
                          { Name := "GRANULAR_EVICTION", Value := backupDaemon.GranularEviction },
                          { Name := "JOB_FLAG", Value := backupDaemon.JobFlag },
                          { Name := "CONNECT_TIMEOUT", Value := backupDaemon.ConnectTimeout },
                          { Name := "ALLOW_PREFIX", Value := FormatBool backupDaemon.AllowPrefix },
                          { Name := "EXCLUDED_EXTENSIONS", Value := backupDaemon.ExcludedExtensions },
                          { Name := "COMPRESSION_LEVEL", Value := Itoa backupDaemon.CompressionLevel },
                          { Name := "ENCRYPTION", Value := FormatBool backupDaemon.Encryption },
                          { Name := "RETAIN_ARCHIVE_SETTINGS"
                            Value := FormatBool backupDaemon.RetainArchiveSettings },
                          { Name := "BACKUP_TIMEOUT", Value := Itoa backupDaemon.BackupTimeout },
                          { Name := "GRANULAR_BACKUP_SCHEDULE"
                            Value := backupDaemon.GranularBackupSchedule },
                          { Name := "DATABASES_TO_SCHEDULE"
                            Value := backupDaemon.DatabasesToSchedule },
                          { Name := "USE_EVICTION_POLICY_FIRST"
                            Value := backupDaemon.UseEvictionPolicyFirst },
                          { Name := "EVICTION_POLICY_BINARY"
                            Value := backupDaemon.EvictionBinaryPolicy },
                          { Name := "AUTH", Value := "False" },
                          { Name := "POSTGRES_HOST", Value := pgHost },
                          { Name := "POSTGRES_PORT", Value := "5432" },
                          { Name := "STORAGE_TYPE", Value := backupDaemon.Storage.Type_ },
                          { Name := "EVICTION_POLICY", Value := backupDaemon.EvictionPolicy },
                          { Name := "BACKUP_SCHEDULE", Value := backupDaemon.BackupSchedule },
                          { Name := "PGSSLMODE", Value := sslMode },
                          { Name := "ARCHIVE_EVICT_POLICY"
                            Value := backupDaemon.ArchiveEvictionPolicy },
                          fieldEnv "POD_NAMESPACE" "metadata.namespace" ]
                       Ports :=
                        [ { Name := "web", ContainerPort := 8080 },
                          { Name := "backups", ContainerPort := 8081 },
                          { Name := "archive", ContainerPort := 8082 },
                          { Name := "granular", ContainerPort := 9000 } ]
                       VolumeMounts := [{ MountPath := "/backup-storage", Name := "backup-data" }]
                       LivenessProbe :=
                        some
                          { ProbeHandler :=
                              { HTTPGet := some { Path := "/v2/health", Port := FromInt 8080 } }
                            InitialDelaySeconds := 20
                            PeriodSeconds := 10
                            FailureThreshold := 30
                            TimeoutSeconds := 5
                            SuccessThreshold := 1 }
                       ReadinessProbe :=
                        some
                          { ProbeHandler :=
                              { HTTPGet := some { Path := "/v2/health", Port := FromInt 8080 } }
                            InitialDelaySeconds := 20
                            PeriodSeconds := 10
                            FailureThreshold := 30
                            TimeoutSeconds := 5
                            SuccessThreshold := 1 }
                       Resources := resources }]
                  SecurityContext := some backupDaemon.SecurityContext } } } }

/-- Function `NewBackupDaemonDeployment`: the deployment, or the panic raised. -/
def NewBackupDaemonDeployment {A S R : Type} (getenv : Env) (backupDaemon : BackupDaemon A S R)
    (pgClusterName : String) (serviceAccountName : String) :
    Except Fault (Deployment A S R) := do
  let nodes := backupDaemon.Storage.Nodes
  let pgHost := backupDaemon.PgHost
  let sslMode := if backupDaemon.SslMode ≠ "" then backupDaemon.SslMode else "prefer"
  let resources ← deref backupDaemon.Resources
  let deployment :=
    backupDaemonDeploymentLiteral getenv backupDaemon pgClusterName serviceAccountName pgHost
      sslMode resources
  let deployment ←
    match nodes with
    | some nodes => do
      let node ← index nodes 0
      pure { deployment with Spec.Template.Spec.NodeSelector := [("kubernetes.io/hostname", node)] }
    | none => pure deployment
  let deployment :=
    if backupDaemon.PriorityClassName ≠ "" then
      { deployment with Spec.Template.Spec.PriorityClassName := backupDaemon.PriorityClassName }
    else deployment
  let storageType := backupDaemon.Storage.Type_
  let deployment :=
    if storageType = "ephemeral" ∨ storageType = "s3" then
      { deployment with
        Spec.Template.Spec.Volumes :=
          [{ Name := "backup-data", VolumeSource := { EmptyDir := some {} } }] }
    else
      { deployment with
        Spec.Template.Spec.Volumes :=
          [{ Name := "backup-data"
             VolumeSource :=
              { PersistentVolumeClaim :=
                  some { ClaimName := "postgres-backup-pvc", ReadOnly := false } } }] }
  if backupDaemon.ExternalPv ≠ none then do
    let deployment :=
      { deployment with
        Spec.Template.Spec.Volumes :=
          deployment.Spec.Template.Spec.Volumes ++ [getExternalBackupVolume] }
    let container ← index deployment.Spec.Template.Spec.Containers 0
    pure { deployment with
      Spec.Template.Spec.Containers :=
        deployment.Spec.Template.Spec.Containers.set 0
          { container with
            VolumeMounts := container.VolumeMounts ++ [getExternalBackupVolumeMount] } }
  else
    pure deployment

/-! ## `pkg/reconciler/monitoring.go` -/

/-- Variable `MetricCollectorLabels`. -/
def MetricCollectorLabels : StringMap := [("app", "monitoring-collector")]

/-- Constant `MetricCollectorDeploymentName`. -/
def MetricCollectorDeploymentName : String := "monitoring-collector"

/-- Constant `MetricCollectorUserCredentials`. -/
def MetricCollectorUserCredentials : String := "monitoring-credentials"

/-- Constant `influxDbAdminCredentials`. -/
def influxDbAdminCredentials : String := "influx-db-admin-credentials"

/-- Constant `telegrafConfig`. -/
def telegrafConfig : String := "telegraf-configmap"

/-- Function `getInfluxConfigMapVolume`. -/
def getInfluxConfigMapVolume : Volume :=
  { Name := "influxdb-telegraf-config-volume"
    VolumeSource :=
      { ConfigMap := some { LocalObjectReference := { Name := "influxdb-telegraf-configmap" } } } }

/-- Function `getInfluxConfigMapVolumeMount`. -/
def getInfluxConfigMapVolumeMount : VolumeMount :=
  { MountPath := "/etc/telegraf/telegraf.d/influxdb-telegraf_temp.conf"
    SubPath := "influxdb-telegraf_temp.conf"
    Name := "influxdb-telegraf-config-volume" }

/-- Function `getDevEnvs`. -/
def getDevEnvs {A S R : Type} (metricCollector : MetricCollector A S R) : List EnvVar :=
  if metricCollector.MetricsProfile = "dev" then
    [ { Name := "DEV_METRICS_TIMEOUT", Value := Itoa metricCollector.DevMetricsTimeout },
      { Name := "DEV_METRICS_INTERVAL", Value := Itoa metricCollector.DevMetricsInterval } ]
  else []

/-- The composite literal `&appsv1.Deployment{...}` with which `NewMonitoringDeployment`
initialises `deployment`; `sslMode` is the local variable of that name and `resources` is
the value of `*metricCollector.Resources`. -/
def monitoringDeploymentLiteral {A S R : Type} (getenv : Env)
    (metricCollector : MetricCollector A S R) (pgcluster : String)
    (serviceAccountName : String) (sslMode : String) (resources : R) : Deployment A S R :=
    { ObjectMeta :=
        { Name := MetricCollectorDeploymentName
          Namespace := GetNameSpace getenv
          Labels := Merge [MetricCollectorLabels, metricCollector.PodLabels] }
      Spec :=
        { Strategy := { Type_ := RollingUpdateDeploymentStrategyType }
          Selector :=
            some { MatchLabels := Merge [MetricCollectorLabels, metricCollector.PodLabels] }
          Template :=
            { ObjectMeta := { Labels := Merge [MetricCollectorLabels, metricCollector.PodLabels] }
              Spec :=
                { ServiceAccountName := serviceAccountName
                  Affinity := some metricCollector.Affinity
                  Volumes :=
                    [{ Name := "telegraf-config-volume"
                       VolumeSource :=
                        { ConfigMap :=
                            some { LocalObjectReference := { Name := telegrafConfig } } } }]
                  InitContainers := []
                  Containers :=
                    [{ Name := MetricCollectorDeploymentName
                       Image := metricCollector.DockerImage
                       Command := []
                       Args := []
                       Env :=
                        [ secretEnv "MONITORING_USER" MetricCollectorUserCredentials "username",
                          secretEnv "MONITORING_PASSWORD" MetricCollectorUserCredentials "password",
                          secretEnv "PG_ROOT_USER" (GetRootSecretName pgcluster) "username",
                          secretEnv "PG_ROOT_PASSWORD" (GetRootSecretName pgcluster) "password",
                          secretEnv "INFLUXDB_USER" influxDbAdminCredentials "username",
                          secretEnv "INFLUXDB_PASSWORD" influxDbAdminCredentials "password",
                          fieldEnv "NAMESPACE" "metadata.namespace",
                          { Name := "INFLUXDB_URL", Value := metricCollector.InfluxDbHost },
                          { Name := "INFLUXDB_DATABASE", Value := metricCollector.InfluxDatabase },
                          { Name := "TELEGRAF_PLUGIN_TIMEOUT"
                            Value := Itoa metricCollector.TelegrafPluginTimeout },
                          { Name := "METRIC_COLLECTION_INTERVAL"
                            Value := Itoa metricCollector.CollectionInterval },
                          { Name := "METRIC_COLLECTOR_OC_EXEC_TIMEOUT"
                            Value := Itoa metricCollector.OcExecTimeout },
                          { Name := "METRICS_PROFILE", Value := metricCollector.MetricsProfile },
                          { Name := "PGCLUSTER", Value := pgcluster },
                          { Name := "POSTGRESQL_CREDENTIALS", Value := GetRootSecretName pgcluster },
                          { Name := "PATRONI_ENTITY_TYPE", Value := "deployment" },
                          { Name := "PGSSLMODE", Value := sslMode } ] ++
                        getDevEnvs metricCollector
                       VolumeMounts :=
                        [{ MountPath := "/etc/telegraf/telegraf_temp.conf"
                           SubPath := "telegraf_temp.conf"
                           Name := "telegraf-config-volume" }]
                       Resources := resources }]
                  SecurityContext := some metricCollector.SecurityContext } } } }

/-- Function `NewMonitoringDeployment`: the deployment, or the panic raised. -/
def NewMonitoringDeployment {A S R : Type} (getenv : Env)
    (metricCollector : MetricCollector A S R) (pgcluster : String)
    (serviceAccountName : String) : Except Fault (Deployment A S R) := do
  let sslMode := if metricCollector.SslMode ≠ "" then metricCollector.SslMode else "prefer"
  let resources ← deref metricCollector.Resources
  let deployment :=
    monitoringDeploymentLiteral getenv metricCollector pgcluster serviceAccountName sslMode
      resources
  let deployment :=
    if metricCollector.PriorityClassName ≠ "" then
      { deployment with Spec.Template.Spec.PriorityClassName := metricCollector.PriorityClassName }
    else deployment
  if metricCollector.InfluxDbHost ≠ "" then do
    let deployment :=
      { deployment with
        Spec.Template.Spec.Volumes :=
          deployment.Spec.Template.Spec.Volumes ++ [getInfluxConfigMapVolume] }
    let container ← index deployment.Spec.Template.Spec.Containers 0
    pure { deployment with
      Spec.Template.Spec.Containers :=
        deployment.Spec.Template.Spec.Containers.set 0
          { container with
            VolumeMounts := container.VolumeMounts ++ [getInfluxConfigMapVolumeMount] } }
  else
    pure deployment

/-! ## Vocabulary of the statements -/

/-- The string is one of the three access modes `getAccessModes` recognises. -/
def isAccessMode (mode : String) : Bool :=
  mode == ReadWriteOnce || mode == ReadWriteMany || mode == ReadOnlyMany

/-- Message logged by `getAccessModes` for an unknown mode. -/
def skipMessage (mode : String) : String := "Skipping unknown AccessMode: " ++ mode

/-- Removal of duplicates that keeps the first occurrence of every element; `seen` holds
the elements met so far. -/
def dedupKeepFirst (seen : List String) : List String → List String
  | [] => []
  | x :: xs => if x ∈ seen then dedupKeepFirst seen xs else x :: dedupKeepFirst (x :: seen) xs

/-- Access modes as the specification words them: the valid entries of the input,
deduplicated, in the order of their first occurrence; `ReadWriteOnce` alone for an empty
input. -/
def specAccessModes (accessModes : List String) : List PersistentVolumeAccessMode :=
  if accessModes = [] then [ReadWriteOnce]
  else dedupKeepFirst [] (accessModes.filter isAccessMode)

/-- The spec `NewPvc` builds for "provisioned", and for "pv" before a binding is chosen. -/
def baseSpec {Q : Type} (size : Q) (st : Storage) : PersistentVolumeClaimSpec Q :=
  { Resources := { Requests := [(ResourceStorage, size)] }
    AccessModes := (getAccessModes st.AccessModes).1
    StorageClassName := some st.StorageClass }

/-- The claim `NewPvc` wraps around a spec. -/
def claimOf {Q : Type} (getenv : Env) (pvcName : String) (spec : PersistentVolumeClaimSpec Q) :
    PersistentVolumeClaim Q :=
  { ObjectMeta := { Name := pvcName, Namespace := GetNameSpace getenv }, Spec := spec }

/-- Go `strings.HasPrefix`: the string `s` starts with `p`. -/
def startsWith (s p : String) : Bool := p.data.isPrefixOf s.data

/-- The literal value of the first environment binding named `name`, if there is one. -/
def envValue : List EnvVar → String → Option String
  | [], _ => none
  | e :: rest, name => if e.Name = name then some e.Value else envValue rest name

/-- The names of the environment bindings of the backup daemon container, in the order of
the literal in `NewBackupDaemonDeployment`. -/
def backupDaemonEnvNames : List String :=
  [ "POSTGRES_PASSWORD", "POSTGRES_USER", "PGPASSWORD", "PG_CLUSTER_NAME",
    "PUBLIC_ENDPOINTS_WORKERS_NUMBER", "PRIVATE_ENDPOINTS_WORKERS_NUMBER",
    "ARCHIVE_ENDPOINTS_WORKERS_NUMBER", "GRANULAR_EVICTION", "JOB_FLAG", "CONNECT_TIMEOUT",
    "ALLOW_PREFIX", "EXCLUDED_EXTENSIONS", "COMPRESSION_LEVEL", "ENCRYPTION",
    "RETAIN_ARCHIVE_SETTINGS", "BACKUP_TIMEOUT", "GRANULAR_BACKUP_SCHEDULE",
    "DATABASES_TO_SCHEDULE", "USE_EVICTION_POLICY_FIRST", "EVICTION_POLICY_BINARY", "AUTH",
    "POSTGRES_HOST", "POSTGRES_PORT", "STORAGE_TYPE", "EVICTION_POLICY", "BACKUP_SCHEDULE",
    "PGSSLMODE", "ARCHIVE_EVICT_POLICY", "POD_NAMESPACE" ]

/-- The volume "backup-data" `NewBackupDaemonDeployment` selects for a storage type. -/
def primaryVolume (storageType : String) : Volume :=
  if storageType = "ephemeral" ∨ storageType = "s3" then
    { Name := "backup-data", VolumeSource := { EmptyDir := some {} } }
  else
    { Name := "backup-data"
      VolumeSource :=
        { PersistentVolumeClaim :=
            some { ClaimName := "postgres-backup-pvc", ReadOnly := false } } }

/-- The deployment `NewBackupDaemonDeployment` returns when it does not panic, in closed
form: the literal with the node selector, the priority class, the volumes and the mounts
overlaid. -/
def backupDaemonBuilt {A S R : Type} (getenv : Env) (cfg : BackupDaemon A S R)
    (pgClusterName : String) (serviceAccountName : String) (resources : R) :
    Deployment A S R :=
  let literal :=
    backupDaemonDeploymentLiteral getenv cfg pgClusterName serviceAccountName cfg.PgHost
      (if cfg.SslMode ≠ "" then cfg.SslMode else "prefer") resources
  { literal with
    Spec.Template.Spec.NodeSelector :=
      match cfg.Storage.Nodes with
      | some (node :: _) => [("kubernetes.io/hostname", node)]
      | _ => []
    Spec.Template.Spec.PriorityClassName := cfg.PriorityClassName
    Spec.Template.Spec.Volumes :=
      primaryVolume cfg.Storage.Type_ ::
        (if cfg.ExternalPv ≠ none then [getExternalBackupVolume] else [])
    Spec.Template.Spec.Containers :=
      literal.Spec.Template.Spec.Containers.map fun c =>
        { c with
          VolumeMounts :=
            c.VolumeMounts ++
              (if cfg.ExternalPv ≠ none then [getExternalBackupVolumeMount] else []) } }

/-- The deployment `NewMonitoringDeployment` returns when it does not panic, in closed form:
the literal with the priority class, the volumes and the mounts overlaid. -/
def monitoringBuilt {A S R : Type} (getenv : Env) (cfg : MetricCollector A S R)
    (pgcluster : String) (serviceAccountName : String) (resources : R) : Deployment A S R :=
  let literal :=
    monitoringDeploymentLiteral getenv cfg pgcluster serviceAccountName
      (if cfg.SslMode ≠ "" then cfg.SslMode else "prefer") resources
  { literal with
    Spec.Template.Spec.PriorityClassName := cfg.PriorityClassName
    Spec.Template.Spec.Volumes :=
      literal.Spec.Template.Spec.Volumes ++
        (if cfg.InfluxDbHost ≠ "" then [getInfluxConfigMapVolume] else [])
    Spec.Template.Spec.Containers :=
      literal.Spec.Template.Spec.Containers.map fun c =>
        { c with
          VolumeMounts :=
            c.VolumeMounts ++
              (if cfg.InfluxDbHost ≠ "" then [getInfluxConfigMapVolumeMount] else []) } }

/-! ## Concrete inputs -/

/-- A quantity parser accepting the sizes admitted by the validation pattern of
`Storage.Size`, `^[0-9]+(m|Ki|Mi|Gi|Ti|Pi|Ei|k|M|G|T|P|E)$`; the quantity is kept as text. -/
def sizeParse (s : String) : Option String :=
  let digits := s.data.takeWhile Char.isDigit
  let suffix := String.mk (s.data.dropWhile Char.isDigit)
  if digits ≠ [] ∧ suffix ∈ ["m", "Ki", "Mi", "Gi", "Ti", "Pi", "Ei", "k", "M", "G", "T", "P", "E"]
  then some s else none

/-- A "pv" storage that lists both a selector and a volume. -/
def bothTargets : Storage :=
  { Type_ := "pv", Size := "1Gi", Selectors := ["role=primary"], Volumes := ["pv-a"] }

/-- The claim `NewPvc` builds from `bothTargets` under the name "pvc" at index 1. -/
def bothTargetsClaim : PersistentVolumeClaim String :=
  { ObjectMeta := { Name := "pvc", Namespace := "postgres" }
    Spec :=
      { AccessModes := ["ReadWriteOnce"]
        Selector := some { MatchLabels := [("role", "primary")] }
        Resources := { Requests := [("storage", "1Gi")] }
        VolumeName := ""
        StorageClassName := some "" } }

/-- A "pv" storage with a repeated and an unknown access mode. -/
def repeatedModes : Storage :=
  { Type_ := "pv", Size := "1Gi", Volumes := ["pv-a"]
    AccessModes := ["ReadWriteMany", "bogus", "ReadWriteMany"] }

/-- The claim `NewPvc` builds from `repeatedModes` under the name "pvc" at index 1. -/
def repeatedModesClaim : PersistentVolumeClaim String :=
  { ObjectMeta := { Name := "pvc", Namespace := "postgres" }
    Spec :=
      { AccessModes := ["ReadWriteMany", "ReadWriteMany"]
        Resources := { Requests := [("storage", "1Gi")] }
        VolumeName := "pv-a"
        StorageClassName := some "" } }

/-- A "provisioned" storage of size "10Gi". -/
def fastStorage : Storage := { Type_ := "provisioned", Size := "10Gi", StorageClass := "fast" }

/-- The claim `NewPvc` builds from `fastStorage` under the name "pvc". -/
def fastStorageClaim : PersistentVolumeClaim String :=
  { ObjectMeta := { Name := "pvc", Namespace := "postgres" }
    Spec :=
      { AccessModes := ["ReadWriteOnce"]
        Resources := { Requests := [("storage", "10Gi")] }
        StorageClassName := some "fast" } }

/-- A "pv" storage with the storage class "local". -/
def localStorage : Storage :=
  { Type_ := "pv", Size := "1Gi", StorageClass := "local", Volumes := ["pv-a"] }

/-- The claim `NewPvc` builds from `localStorage` under the name "pvc" at index 1. -/
def localStorageClaim : PersistentVolumeClaim String :=
  { ObjectMeta := { Name := "pvc", Namespace := "postgres" }
    Spec :=
      { AccessModes := ["ReadWriteOnce"]
        Resources := { Requests := [("storage", "1Gi")] }
        VolumeName := "pv-a"
        StorageClassName := some "local" } }

/-- A metric collector with the "dev" metrics profile. -/
def devCollector : MetricCollector Unit Unit Unit :=
  { Affinity := (), SecurityContext := (), Resources := some ()
    MetricsProfile := "dev", DevMetricsTimeout := 30, DevMetricsInterval := -5 }

/-- A metric collector with the "prod" metrics profile. -/
def prodCollector : MetricCollector Unit Unit Unit :=
  { Affinity := (), SecurityContext := (), Resources := some ()
    MetricsProfile := "prod", DevMetricsTimeout := 30, DevMetricsInterval := 5 }

/-- A backup daemon with an "s3" storage, pinned nodes and an external volume. -/
def s3Daemon : BackupDaemon Unit Unit Unit :=
  { Affinity := (), SecurityContext := (), Resources := some ()
    Storage := { Type_ := "s3", Nodes := some ["node-1", "node-2"] }
    ExternalPv := some { Name := "ext" }
    PodLabels := [("app", "x"), ("tier", "db")] }

/-- A backup daemon with a "pv" storage and nothing else configured. -/
def pvDaemon : BackupDaemon Unit Unit Unit :=
  { Affinity := (), SecurityContext := (), Resources := some ()
    Storage := { Type_ := "pv" } }

/-- A backup daemon with all three boolean flags set. -/
def flagsDaemon : BackupDaemon Unit Unit Unit :=
  { Affinity := (), SecurityContext := (), Resources := some ()
    Storage := { Type_ := "pv" }
    AllowPrefix := true, Encryption := true, RetainArchiveSettings := true
    SslMode := "require" }

/-- A backup daemon whose resources are present and whose node list is present but empty, as
decoded from `"nodes": []`. -/
def emptyNodesDaemon : BackupDaemon Unit Unit Unit :=
  { Affinity := (), SecurityContext := (), Resources := some ()
    Storage := { Type_ := "pv", Nodes := some [] } }

/-- A "provisioned" storage whose only access mode is not a recognised one. -/
def unknownModeStorage : Storage :=
  { Type_ := "provisioned", Size := "1Gi", AccessModes := ["ReadWriteOncePod"] }

/-- A file system that holds the file "/opt/operator/telegraf" only. -/
def demoFiles : String → Except String String := fun path =>
  if path = "/opt/operator/telegraf" then .ok "[agent]" else .error "no such file"

/-- An environment in which only `WATCH_NAMESPACE` is set. -/
def demoEnv : Env := fun name => if name = "WATCH_NAMESPACE" then "postgres" else ""


/-! ## Lemmas on the runtime model -/

theorem wrapInt_of_isInt {x : Int} (h : isInt x) : wrapInt x = x := by
  unfold isInt minInt maxInt at h
  unfold wrapInt
  omega

theorem index_ok {α : Type} (xs : List α) (i : Int) (x : α) (h0 : 0 ≤ i)
    (hx : xs[i.toNat]? = some x) : index xs i = .ok x := by
  simp [index, h0, hx]

theorem index_fault {α : Type} (xs : List α) (i : Int) (h : i < 0 ∨ (xs.length : Int) ≤ i) :
    index xs i = .error (.indexOutOfRange i xs.length) := by
  unfold index
  split
  · have hn : xs[i.toNat]? = none := by
      rw [List.getElem?_eq_none_iff]
      omega
    rw [hn]
  · rfl

theorem index_cons_zero {α : Type} (x : α) (xs : List α) : index (x :: xs) 0 = .ok x := by
  simp [index]

theorem index_cons_one {α : Type} (x y : α) (ys : List α) :
    index (x :: y :: ys) 1 = .ok y := by
  simp [index]

theorem index_singleton_one {α : Type} (x : α) :
    index [x] 1 = .error (.indexOutOfRange 1 1) := by
  simp [index]

theorem splitChars_of_not_mem (sep : Char) (cs : List Char) (h : sep ∉ cs) :
    splitChars sep cs = [cs] := by
  induction cs with
  | nil => rfl
  | cons c cs ih =>
    have hc : c ≠ sep := fun e => h (by simp [e])
    have hcs : sep ∉ cs := fun e => h (by simp [e])
    simp [splitChars, hc, ih hcs]

theorem splitChars_append_sep (sep : Char) (ks rest : List Char) (h : sep ∉ ks) :
    splitChars sep (ks ++ sep :: rest) = ks :: splitChars sep rest := by
  induction ks with
  | nil => simp [splitChars]
  | cons c cs ih =>
    have hc : c ≠ sep := fun e => h (by simp [e])
    have hcs : sep ∉ cs := fun e => h (by simp [e])
    simp [splitChars, hc, ih hcs]

theorem stringsSplit_key_value (k v : String) (hk : '=' ∉ k.data) (hv : '=' ∉ v.data) :
    stringsSplit (k ++ "=" ++ v) '=' = [k, v] := by
  have hd : (k ++ "=" ++ v).data = k.data ++ '=' :: v.data := by
    simp [String.data_append]
  simp [stringsSplit, hd, splitChars_append_sep _ _ _ hk, splitChars_of_not_mem _ _ hv]

/-! ## Lemmas on `getAccessModes` -/

theorem foldl_getAccessModesStep (modes : List String)
    (acc : List PersistentVolumeAccessMode × List String) :
    modes.foldl getAccessModesStep acc =
      (acc.1 ++ modes.filter isAccessMode,
        acc.2 ++ (modes.filter (fun m => !isAccessMode m)).map skipMessage) := by
  induction modes generalizing acc with
  | nil => simp
  | cons m ms ih =>
    have e1 : ReadWriteMany ≠ ReadWriteOnce := by decide
    have e2 : ReadOnlyMany ≠ ReadWriteOnce := by decide
    have e3 : ReadOnlyMany ≠ ReadWriteMany := by decide
    rw [List.foldl_cons, ih]
    by_cases h1 : m = ReadWriteOnce
    · simp [getAccessModesStep, isAccessMode, h1]
    · by_cases h2 : m = ReadWriteMany
      · simp [getAccessModesStep, isAccessMode, h2, e1]
      · by_cases h3 : m = ReadOnlyMany
        · simp [getAccessModesStep, isAccessMode, h3, e2, e3]
        · simp [getAccessModesStep, isAccessMode, h1, h2, h3, skipMessage]

theorem getAccessModes_of_ne_nil (modes : List String) (h : modes ≠ []) :
    getAccessModes modes =
      (modes.filter isAccessMode, (modes.filter (fun m => !isAccessMode m)).map skipMessage) := by
  have hl : modes.length ≠ 0 := fun e => h (List.length_eq_zero.mp e)
  simp [getAccessModes, hl, foldl_getAccessModesStep]

theorem getAccessModes_nil : getAccessModes [] = ([ReadWriteOnce], []) := rfl

/-! ## Closed forms of `NewPvc`, branch by branch -/

theorem NewPvc_provisioned {Q : Type} (getenv : Env) (parse : String → Option Q)
    (pvcName : String) (st : Storage) (idx : Int) (q : Q)
    (htype : st.Type_ = "provisioned") (hsize : parse st.Size = some q) :
    NewPvc getenv parse pvcName st idx =
      .ok (claimOf getenv pvcName (baseSpec q st), (getAccessModes st.AccessModes).2) := by
  simp [NewPvc, htype, MustParse, hsize, claimOf, baseSpec, bind, Except.bind, pure, Except.pure]

theorem NewPvc_other {Q : Type} (getenv : Env) (parse : String → Option Q)
    (pvcName : String) (st : Storage) (idx : Int)
    (h1 : st.Type_ ≠ "provisioned") (h2 : st.Type_ ≠ "pv") :
    NewPvc getenv parse pvcName st idx = .ok (claimOf getenv pvcName {}, []) := by
  simp [NewPvc, h1, h2, claimOf, bind, Except.bind, pure, Except.pure]

theorem NewPvc_size_fault {Q : Type} (getenv : Env) (parse : String → Option Q)
    (pvcName : String) (st : Storage) (idx : Int)
    (htype : st.Type_ = "provisioned" ∨ st.Type_ = "pv") (hsize : parse st.Size = none) :
    NewPvc getenv parse pvcName st idx = .error (.mustParse st.Size) := by
  rcases htype with h | h <;>
    simp [NewPvc, h, MustParse, hsize, bind, Except.bind, pure, Except.pure]

theorem NewPvc_pv_selectors {Q : Type} (getenv : Env) (parse : String → Option Q)
    (pvcName : String) (st : Storage) (idx : Int) (q : Q)
    (htype : st.Type_ = "pv") (hsize : parse st.Size = some q) (hsel : st.Selectors ≠ []) :
    NewPvc getenv parse pvcName st idx =
      (index st.Selectors (wrapInt (idx - 1))).bind fun selector =>
        (index (stringsSplit selector '=') 0).bind fun key =>
          (index (stringsSplit selector '=') 1).bind fun value =>
            .ok (claimOf getenv pvcName
              { baseSpec q st with Selector := some { MatchLabels := [(key, value)] } },
              (getAccessModes st.AccessModes).2) := by
  have hpos : 0 < st.Selectors.length := List.length_pos.mpr hsel
  by_cases hc : st.StorageClass = ""
  · simp [NewPvc, htype, MustParse, hsize, hpos, hc, claimOf, baseSpec, bind, Except.bind,
      pure, Except.pure]
  · simp [NewPvc, htype, MustParse, hsize, hpos, hc, claimOf, baseSpec, bind, Except.bind,
      pure, Except.pure]

theorem NewPvc_pv_volumes {Q : Type} (getenv : Env) (parse : String → Option Q)
    (pvcName : String) (st : Storage) (idx : Int) (q : Q)
    (htype : st.Type_ = "pv") (hsize : parse st.Size = some q) (hsel : st.Selectors = [])
    (hlen : idx ≤ st.Volumes.length) :
    NewPvc getenv parse pvcName st idx =
      (index st.Volumes (wrapInt (idx - 1))).bind fun volume =>
        .ok (claimOf getenv pvcName { baseSpec q st with VolumeName := volume },
          (getAccessModes st.AccessModes).2) := by
  by_cases hc : st.StorageClass = ""
  · simp [NewPvc, htype, MustParse, hsize, hsel, hlen, hc, claimOf, baseSpec, bind, Except.bind,
      pure, Except.pure]
  · simp [NewPvc, htype, MustParse, hsize, hsel, hlen, hc, claimOf, baseSpec, bind, Except.bind,
      pure, Except.pure]

theorem NewPvc_pv_unbound {Q : Type} (getenv : Env) (parse : String → Option Q)
    (pvcName : String) (st : Storage) (idx : Int) (q : Q)
    (htype : st.Type_ = "pv") (hsize : parse st.Size = some q) (hsel : st.Selectors = [])
    (hlen : (st.Volumes.length : Int) < idx) :
    NewPvc getenv parse pvcName st idx =
      .ok (claimOf getenv pvcName (baseSpec q st),
        (getAccessModes st.AccessModes).2 ++
          ["The volume for PVC " ++ pvcName ++ " is not specified!!!"]) := by
  have hn : ¬ idx ≤ (st.Volumes.length : Int) := by omega
  by_cases hc : st.StorageClass = ""
  · simp [NewPvc, htype, MustParse, hsize, hsel, hn, hc, claimOf, baseSpec, bind, Except.bind,
      pure, Except.pure]
  · simp [NewPvc, htype, MustParse, hsize, hsel, hn, hc, claimOf, baseSpec, bind, Except.bind,
      pure, Except.pure]

/-- Every claim `NewPvc` returns for a storage of type "provisioned" or "pv" is the base
spec for the parsed size, with some selector and some volume name. -/
theorem NewPvc_ok_base {Q : Type} (getenv : Env) (parse : String → Option Q)
    (pvcName : String) (st : Storage) (idx : Int) (c : PersistentVolumeClaim Q)
    (log : List String) (htype : st.Type_ = "provisioned" ∨ st.Type_ = "pv")
    (h : NewPvc getenv parse pvcName st idx = .ok (c, log)) :
    ∃ q selector volume, parse st.Size = some q ∧
      c = claimOf getenv pvcName
        { baseSpec q st with Selector := selector, VolumeName := volume } := by
  cases hq : parse st.Size with
  | none =>
    rw [NewPvc_size_fault getenv parse pvcName st idx htype hq] at h
    cases h
  | some q =>
    rcases htype with hprov | hpv
    · rw [NewPvc_provisioned getenv parse pvcName st idx q hprov hq] at h
      cases h
      exact ⟨q, none, "", rfl, rfl⟩
    · by_cases hsel : st.Selectors = []
      · by_cases hlen : idx ≤ st.Volumes.length
        · rw [NewPvc_pv_volumes getenv parse pvcName st idx q hpv hq hsel hlen] at h
          cases hv : index st.Volumes (wrapInt (idx - 1)) with
          | error e =>
            rw [hv] at h
            cases h
          | ok v =>
            rw [hv] at h
            cases h
            exact ⟨q, none, v, rfl, rfl⟩
        · rw [NewPvc_pv_unbound getenv parse pvcName st idx q hpv hq hsel (by omega)] at h
          cases h
          exact ⟨q, none, "", rfl, rfl⟩
      · rw [NewPvc_pv_selectors getenv parse pvcName st idx q hpv hq hsel] at h
        cases hs : index st.Selectors (wrapInt (idx - 1)) with
        | error e =>
          rw [hs] at h
          cases h
        | ok sel =>
          rw [hs] at h
          cases h0 : index (stringsSplit sel '=') 0 with
          | error e =>
            simp [Except.bind, h0] at h
          | ok key =>
            cases h1 : index (stringsSplit sel '=') 1 with
            | error e =>
              simp [Except.bind, h0, h1] at h
            | ok value =>
              simp [Except.bind, h0, h1] at h
              obtain ⟨hc, -⟩ := h
              exact ⟨q, some { MatchLabels := [(key, value)] }, "", rfl, hc.symm⟩

/-! ## Binding of a "pv" claim -/

/-- C1: for a storage of type "pv" whose selector at position `idx` (1-based) is
`k=v`, with no "=" inside `k` or `v`, `NewPvc` returns a claim whose label selector has
the match labels `{k: v}` and nothing else. -/
theorem C1_selector_match_labels {Q : Type} (getenv : Env) (parse : String → Option Q)
    (pvcName : String) (st : Storage) (idx : Int) (q : Q) (k v : String)
    (htype : st.Type_ = "pv") (hsize : parse st.Size = some q) (hint : isInt idx)
    (hlo : 1 ≤ idx) (hhi : idx ≤ st.Selectors.length)
    (hsel : st.Selectors[(idx - 1).toNat]? = some (k ++ "=" ++ v))
    (hk : '=' ∉ k.data) (hv : '=' ∉ v.data) :
    ∃ c log, NewPvc getenv parse pvcName st idx = .ok (c, log) ∧
      c.Spec.Selector = some { MatchLabels := [(k, v)] } := by
  have hne : st.Selectors ≠ [] := by
    intro e
    simp [e] at hhi
    omega
  have hw : wrapInt (idx - 1) = idx - 1 := by
    apply wrapInt_of_isInt
    unfold isInt minInt maxInt at *
    omega
  rw [NewPvc_pv_selectors getenv parse pvcName st idx q htype hsize hne, hw,
    index_ok _ _ _ (by omega) hsel]
  simp [Except.bind, stringsSplit_key_value k v hk hv, index_cons_zero, index_cons_one, claimOf]

/-- C1 at `selectors = ["role=primary"]`, `idx = 1`: the selector is `{role: primary}`. -/
theorem C1_selector_match_labels_witness :
    ∃ c log, NewPvc demoEnv sizeParse "pvc"
        { Type_ := "pv", Size := "1Gi", Selectors := ["role=primary"] } 1 = .ok (c, log) ∧
      c.Spec.Selector = some { MatchLabels := [("role", "primary")] } :=
  C1_selector_match_labels demoEnv sizeParse "pvc"
    { Type_ := "pv", Size := "1Gi", Selectors := ["role=primary"] } 1 "1Gi" "role" "primary"
    rfl rfl (by decide) (by decide) (by decide) rfl (by decide) (by decide)

/-- C2: for a storage of type "pv" with no selectors and `1 ≤ idx ≤ len(volumes)`,
`NewPvc` returns a claim whose volume name is `volumes[idx-1]` and whose label selector
is unset. -/
theorem C2_volume_binding {Q : Type} (getenv : Env) (parse : String → Option Q)
    (pvcName : String) (st : Storage) (idx : Int) (q : Q)
    (htype : st.Type_ = "pv") (hsize : parse st.Size = some q) (hint : isInt idx)
    (hsel : st.Selectors = []) (hlo : 1 ≤ idx) (hhi : idx ≤ st.Volumes.length) :
    ∃ c log, NewPvc getenv parse pvcName st idx = .ok (c, log) ∧
      st.Volumes[(idx - 1).toNat]? = some c.Spec.VolumeName ∧ c.Spec.Selector = none := by
  have hw : wrapInt (idx - 1) = idx - 1 := by
    apply wrapInt_of_isInt
    unfold isInt minInt maxInt at *
    omega
  have hlt : (idx - 1).toNat < st.Volumes.length := by omega
  have hget : st.Volumes[(idx - 1).toNat]? = some (st.Volumes[(idx - 1).toNat]) :=
    List.getElem?_eq_getElem hlt
  rw [NewPvc_pv_volumes getenv parse pvcName st idx q htype hsize hsel hhi, hw,
    index_ok _ _ _ (by omega) hget]
  simp [Except.bind, claimOf, baseSpec, hget]

/-- C2 at `volumes = ["pv-a", "pv-b"]`, `idx = 2`: the claim binds to `pv-b`. -/
theorem C2_volume_binding_witness :
    ∃ c log, NewPvc demoEnv sizeParse "pvc"
        { Type_ := "pv", Size := "1Gi", Volumes := ["pv-a", "pv-b"] } 2 = .ok (c, log) ∧
      some "pv-b" = some c.Spec.VolumeName ∧ c.Spec.Selector = none :=
  C2_volume_binding demoEnv sizeParse "pvc"
    { Type_ := "pv", Size := "1Gi", Volumes := ["pv-a", "pv-b"] } 2 "1Gi"
    rfl rfl (by decide) rfl (by decide) (by decide)

/-- C3, as stated, fails: for a storage of type "pv" with no selectors, no volumes and the
index 1, but with an omitted size, `NewPvc` does fail: `resource.MustParse` panics on the
empty string before any binding is considered. -/
theorem C3_malformed_size_counterexample :
    ({ Type_ := "pv", Size := "" } : Storage).Selectors = [] ∧
    ((({ Type_ := "pv", Size := "" } : Storage).Volumes.length : Int) < 1) ∧
    sizeParse "" = none ∧
    NewPvc demoEnv sizeParse "pvc" { Type_ := "pv", Size := "" } 1 =
      .error (.mustParse "") :=
  ⟨rfl, by decide, rfl, rfl⟩

/-- C3, amended: for a storage of type "pv" with a well-formed size, no selectors and
fewer than `idx` volumes, `NewPvc` does not fail: it logs that the volume is not specified
and returns a claim with no label selector and an empty volume name, whose capacity, access
modes and storage class are those of every "pv" claim. -/
theorem C3_unbound_claim {Q : Type} (getenv : Env) (parse : String → Option Q)
    (pvcName : String) (st : Storage) (idx : Int) (q : Q)
    (htype : st.Type_ = "pv") (hsize : parse st.Size = some q)
    (hsel : st.Selectors = []) (hlen : (st.Volumes.length : Int) < idx) :
    NewPvc getenv parse pvcName st idx =
      .ok ({ ObjectMeta := { Name := pvcName, Namespace := GetNameSpace getenv }
             Spec :=
              { AccessModes := (getAccessModes st.AccessModes).1
                Selector := none
                Resources := { Requests := [(ResourceStorage, q)] }
                VolumeName := ""
                StorageClassName := some st.StorageClass } },
        (getAccessModes st.AccessModes).2 ++
          ["The volume for PVC " ++ pvcName ++ " is not specified!!!"]) := by
  rw [NewPvc_pv_unbound getenv parse pvcName st idx q htype hsize hsel hlen]
  rfl

/-- C3, amended, at `volumes = ["pv-a", "pv-b"]`, `idx = 3` and the size "1Gi". -/
theorem C3_unbound_claim_witness :
    NewPvc demoEnv sizeParse "pvc"
        { Type_ := "pv", Size := "1Gi", Volumes := ["pv-a", "pv-b"] } 3 =
      .ok ({ ObjectMeta := { Name := "pvc", Namespace := "postgres" }
             Spec :=
              { AccessModes := ["ReadWriteOnce"]
                Selector := none
                Resources := { Requests := [("storage", "1Gi")] }
                VolumeName := ""
                StorageClassName := some "" } },
        ["The volume for PVC pvc is not specified!!!"]) :=
  C3_unbound_claim demoEnv sizeParse "pvc"
    { Type_ := "pv", Size := "1Gi", Volumes := ["pv-a", "pv-b"] } 3 "1Gi"
    rfl rfl rfl (by decide)

/-- C4: the binding targets are mutually exclusive and selectors take priority: a claim
returned by `NewPvc` never has both a label selector and a non-empty volume name; when
`selectors` is non-empty its volume name is empty; and with non-empty `selectors` the
result of `NewPvc` does not depend on `volumes` at all. -/
theorem C4_binding_exclusive {Q : Type} (getenv : Env) (parse : String → Option Q)
    (pvcName : String) (st : Storage) (idx : Int) :
    (∀ c log, NewPvc getenv parse pvcName st idx = .ok (c, log) →
      (c.Spec.Selector = none ∨ c.Spec.VolumeName = "") ∧
      (st.Selectors ≠ [] → c.Spec.VolumeName = "")) ∧
    (st.Selectors ≠ [] → ∀ volumes,
      NewPvc getenv parse pvcName { st with Volumes := volumes } idx =
        NewPvc getenv parse pvcName st idx) := by
  constructor
  · intro c log h
    by_cases hprov : st.Type_ = "provisioned"
    · cases hq : parse st.Size with
      | none =>
        rw [NewPvc_size_fault getenv parse pvcName st idx (Or.inl hprov) hq] at h
        cases h
      | some q =>
        rw [NewPvc_provisioned getenv parse pvcName st idx q hprov hq] at h
        cases h
        simp [claimOf, baseSpec]
    · by_cases hpv : st.Type_ = "pv"
      · cases hq : parse st.Size with
        | none =>
          rw [NewPvc_size_fault getenv parse pvcName st idx (Or.inr hpv) hq] at h
          cases h
        | some q =>
          by_cases hsel : st.Selectors = []
          · by_cases hlen : idx ≤ st.Volumes.length
            · rw [NewPvc_pv_volumes getenv parse pvcName st idx q hpv hq hsel hlen] at h
              cases hv : index st.Volumes (wrapInt (idx - 1)) with
              | error e =>
                rw [hv] at h
                cases h
              | ok v =>
                rw [hv] at h
                cases h
                simp [claimOf, baseSpec, hsel]
            · rw [NewPvc_pv_unbound getenv parse pvcName st idx q hpv hq hsel
                (by omega)] at h
              cases h
              simp [claimOf, baseSpec]
          · rw [NewPvc_pv_selectors getenv parse pvcName st idx q hpv hq hsel] at h
            cases hs : index st.Selectors (wrapInt (idx - 1)) with
            | error e =>
              rw [hs] at h
              cases h
            | ok sel =>
              rw [hs] at h
              cases h0 : index (stringsSplit sel '=') 0 with
              | error e =>
                simp [Except.bind, h0] at h
              | ok key =>
                cases h1 : index (stringsSplit sel '=') 1 with
                | error e =>
                  simp [Except.bind, h0, h1] at h
                | ok value =>
                  simp [Except.bind, h0, h1] at h
                  obtain ⟨hc, -⟩ := h
                  subst hc
                  simp [claimOf, baseSpec]
      · rw [NewPvc_other getenv parse pvcName st idx hprov hpv] at h
        cases h
        simp [claimOf]
  · intro hsel volumes
    by_cases hprov : st.Type_ = "provisioned"
    · simp [NewPvc, hprov]
    · by_cases hpv : st.Type_ = "pv"
      · have hpos : 0 < st.Selectors.length := List.length_pos.mpr hsel
        simp [NewPvc, hpv, hpos]
      · simp [NewPvc, hprov, hpv]

/-- C4 at a "pv" storage that lists both a selector and a volume: the claim carries the
selector, its volume name is empty, and dropping the volumes changes nothing. -/
theorem C4_binding_exclusive_witness :
    NewPvc demoEnv sizeParse "pvc" bothTargets 1 = .ok (bothTargetsClaim, []) ∧
    (bothTargetsClaim.Spec.Selector = none ∨ bothTargetsClaim.Spec.VolumeName = "") ∧
    bothTargetsClaim.Spec.VolumeName = "" ∧
    NewPvc demoEnv sizeParse "pvc" { bothTargets with Volumes := [] } 1 =
      NewPvc demoEnv sizeParse "pvc" bothTargets 1 :=
  ⟨rfl,
    ((C4_binding_exclusive demoEnv sizeParse "pvc" bothTargets 1).1 bothTargetsClaim [] rfl).1,
    ((C4_binding_exclusive demoEnv sizeParse "pvc" bothTargets 1).1 bothTargetsClaim [] rfl).2
      (by decide),
    (C4_binding_exclusive demoEnv sizeParse "pvc" bothTargets 1).2 (by decide) []⟩

/-! ## Access modes -/

/-- C5, as stated, fails: two equal valid entries are both put on the claim, while the
deduplicated sequence has one. -/
theorem C5_duplicates_counterexample :
    NewPvc demoEnv sizeParse "pvc"
        { Type_ := "provisioned", Size := "1Gi"
          AccessModes := ["ReadWriteOnce", "ReadWriteOnce"] } 1 =
      .ok ({ ObjectMeta := { Name := "pvc", Namespace := "postgres" }
             Spec :=
              { AccessModes := ["ReadWriteOnce", "ReadWriteOnce"]
                Resources := { Requests := [("storage", "1Gi")] }
                StorageClassName := some "" } }, []) ∧
    (getAccessModes ["ReadWriteOnce", "ReadWriteOnce"]).1 = ["ReadWriteOnce", "ReadWriteOnce"] ∧
    specAccessModes ["ReadWriteOnce", "ReadWriteOnce"] = ["ReadWriteOnce"] ∧
    (getAccessModes ["ReadWriteOnce", "ReadWriteOnce"]).1 ≠
      specAccessModes ["ReadWriteOnce", "ReadWriteOnce"] :=
  ⟨rfl, rfl, rfl, by decide⟩

/-- C5, amended: the access modes computed by `getAccessModes` are `[ReadWriteOnce]` for an
empty input and otherwise the valid entries of the input in their order, duplicates kept;
and they are the access modes of every claim `NewPvc` returns for a storage of type
"provisioned" or "pv". -/
theorem C5_access_modes_keep_duplicates {Q : Type} (getenv : Env) (parse : String → Option Q)
    (pvcName : String) (st : Storage) (idx : Int) :
    (getAccessModes st.AccessModes).1 =
      (if st.AccessModes = [] then [ReadWriteOnce] else st.AccessModes.filter isAccessMode) ∧
    (st.Type_ = "provisioned" ∨ st.Type_ = "pv" →
      ∀ c log, NewPvc getenv parse pvcName st idx = .ok (c, log) →
        c.Spec.AccessModes = (getAccessModes st.AccessModes).1) := by
  constructor
  · by_cases h : st.AccessModes = []
    · simp [h, getAccessModes_nil]
    · simp [h, getAccessModes_of_ne_nil _ h]
  · intro htype c log h
    obtain ⟨q, selector, volume, -, hc⟩ :=
      NewPvc_ok_base getenv parse pvcName st idx c log htype h
    rw [hc]
    rfl

/-- C5, amended, at a "pv" storage with a repeated and an unknown access mode. -/
theorem C5_access_modes_keep_duplicates_witness :
    (getAccessModes repeatedModes.AccessModes).1 = ["ReadWriteMany", "ReadWriteMany"] ∧
    NewPvc demoEnv sizeParse "pvc" repeatedModes 1 =
      .ok (repeatedModesClaim, ["Skipping unknown AccessMode: bogus"]) ∧
    repeatedModesClaim.Spec.AccessModes = (getAccessModes repeatedModes.AccessModes).1 :=
  ⟨(C5_access_modes_keep_duplicates demoEnv sizeParse "pvc" repeatedModes 1).1,
    rfl,
    (C5_access_modes_keep_duplicates demoEnv sizeParse "pvc" repeatedModes 1).2 (Or.inr rfl)
      repeatedModesClaim ["Skipping unknown AccessMode: bogus"] rfl⟩

/-- C6: `getAccessModes` is a total function; on a non-empty input its result is the input
filtered to `ReadWriteOnce`, `ReadWriteMany` and `ReadOnlyMany`, in the input's order (so
no recognised entry is dropped or moved, and every other string is dropped), one message is
logged for each dropped string, and on every input all entries of the result are among
the three values. -/
theorem C6_access_modes_filter (accessModes : List String) :
    (accessModes ≠ [] →
      (getAccessModes accessModes).1 =
        accessModes.filter
          (fun m => m == "ReadWriteOnce" || m == "ReadWriteMany" || m == "ReadOnlyMany") ∧
      (getAccessModes accessModes).2 =
        (accessModes.filter
          (fun m => !(m == "ReadWriteOnce" || m == "ReadWriteMany" || m == "ReadOnlyMany"))).map
          (fun m => "Skipping unknown AccessMode: " ++ m)) ∧
    (∀ m ∈ (getAccessModes accessModes).1,
      m = "ReadWriteOnce" ∨ m = "ReadWriteMany" ∨ m = "ReadOnlyMany") := by
  constructor
  · intro h
    rw [getAccessModes_of_ne_nil _ h]
    exact ⟨rfl, rfl⟩
  · intro m hm
    by_cases h : accessModes = []
    · subst h
      rw [getAccessModes_nil] at hm
      simp at hm
      exact Or.inl hm
    · rw [getAccessModes_of_ne_nil _ h] at hm
      have hf := (List.mem_filter.mp hm).2
      simpa [isAccessMode, ReadWriteOnce, ReadWriteMany, ReadOnlyMany, or_assoc] using hf

/-- C6 at an input with two unknown strings between recognised ones. -/
theorem C6_access_modes_filter_witness :
    (getAccessModes ["ReadOnlyMany", "readwriteonce", "ReadWriteOnce", "ReadWriteOncePod",
        "ReadOnlyMany"]).1 = ["ReadOnlyMany", "ReadWriteOnce", "ReadOnlyMany"] ∧
    (getAccessModes ["ReadOnlyMany", "readwriteonce", "ReadWriteOnce", "ReadWriteOncePod",
        "ReadOnlyMany"]).2 =
      ["Skipping unknown AccessMode: readwriteonce",
        "Skipping unknown AccessMode: ReadWriteOncePod"] :=
  (C6_access_modes_filter ["ReadOnlyMany", "readwriteonce", "ReadWriteOnce", "ReadWriteOncePod",
    "ReadOnlyMany"]).1 (by decide)

/-! ## Capacity and storage class -/

/-- C7, as stated, fails: for the storage type "s3" with the well-formed size "1Gi" the
claim `NewPvc` returns has an empty spec and requests no capacity. -/
theorem C7_capacity_counterexample :
    sizeParse "1Gi" = some "1Gi" ∧
    NewPvc demoEnv sizeParse "pvc" { Type_ := "s3", Size := "1Gi" } 1 =
      .ok ({ ObjectMeta := { Name := "pvc", Namespace := "postgres" }
             Spec :=
              { AccessModes := [], Selector := none, Resources := { Requests := [] }
                VolumeName := "", StorageClassName := none } }, []) ∧
    ([] : List (String × String)) ≠ [(ResourceStorage, "1Gi")] :=
  ⟨rfl, rfl, by decide⟩

/-- C7, amended: for the storage types "provisioned" and "pv", every claim `NewPvc` returns
requests exactly the storage capacity parsed from `storage.size`; for "ephemeral" and "s3"
`NewPvc` returns a claim with an empty spec, which requests no capacity. -/
theorem C7_capacity_of_claim {Q : Type} (getenv : Env) (parse : String → Option Q)
    (pvcName : String) (st : Storage) (idx : Int) :
    (st.Type_ = "provisioned" ∨ st.Type_ = "pv" →
      ∀ c log, NewPvc getenv parse pvcName st idx = .ok (c, log) →
        ∃ q, parse st.Size = some q ∧ c.Spec.Resources.Requests = [(ResourceStorage, q)]) ∧
    (st.Type_ = "ephemeral" ∨ st.Type_ = "s3" →
      NewPvc getenv parse pvcName st idx =
        .ok ({ ObjectMeta := { Name := pvcName, Namespace := GetNameSpace getenv }
               Spec := {} }, [])) := by
  constructor
  · intro htype c log h
    obtain ⟨q, selector, volume, hq, hc⟩ :=
      NewPvc_ok_base getenv parse pvcName st idx c log htype h
    exact ⟨q, hq, by rw [hc]; rfl⟩
  · intro htype
    have h1 : st.Type_ ≠ "provisioned" := by
      rcases htype with h | h <;> rw [h] <;> decide
    have h2 : st.Type_ ≠ "pv" := by
      rcases htype with h | h <;> rw [h] <;> decide
    rw [NewPvc_other getenv parse pvcName st idx h1 h2]
    rfl

/-- C7, amended, at a "provisioned" storage of size "10Gi" and at an "ephemeral" one. -/
theorem C7_capacity_of_claim_witness :
    NewPvc demoEnv sizeParse "pvc" fastStorage 1 = .ok (fastStorageClaim, []) ∧
    (∃ q, sizeParse fastStorage.Size = some q ∧
      fastStorageClaim.Spec.Resources.Requests = [(ResourceStorage, q)]) ∧
    NewPvc demoEnv sizeParse "pvc" { Type_ := "ephemeral", Size := "10Gi" } 1 =
      .ok ({ ObjectMeta := { Name := "pvc", Namespace := GetNameSpace demoEnv }
             Spec := {} }, []) :=
  ⟨rfl,
    (C7_capacity_of_claim demoEnv sizeParse "pvc" fastStorage 1).1 (Or.inl rfl)
      fastStorageClaim [] rfl,
    (C7_capacity_of_claim demoEnv sizeParse "pvc"
      { Type_ := "ephemeral", Size := "10Gi" } 1).2 (Or.inl rfl)⟩

/-- C8, as stated, fails: for a "pv" storage with an empty storage class the claim's
storage class name is present, a pointer to the empty string, not absent. -/
theorem C8_storage_class_counterexample :
    NewPvc demoEnv sizeParse "pvc"
        { Type_ := "pv", Size := "1Gi", StorageClass := "", Volumes := ["pv-a"] } 1 =
      .ok ({ ObjectMeta := { Name := "pvc", Namespace := "postgres" }
             Spec :=
              { AccessModes := ["ReadWriteOnce"]
                Resources := { Requests := [("storage", "1Gi")] }
                VolumeName := "pv-a"
                StorageClassName := some "" } }, []) ∧
    (some "" : Option String) ≠ none :=
  ⟨rfl, by decide⟩

/-- C8, amended: the storage class name of every claim `NewPvc` returns for a storage of
type "pv" is present and equals `storage.storageClass`, whether that is empty or not: an
empty storage class yields a pointer to the empty string. -/
theorem C8_storage_class_always_set {Q : Type} (getenv : Env) (parse : String → Option Q)
    (pvcName : String) (st : Storage) (idx : Int) (c : PersistentVolumeClaim Q)
    (log : List String) (htype : st.Type_ = "pv")
    (h : NewPvc getenv parse pvcName st idx = .ok (c, log)) :
    c.Spec.StorageClassName = some st.StorageClass := by
  obtain ⟨q, selector, volume, -, hc⟩ :=
    NewPvc_ok_base getenv parse pvcName st idx c log (Or.inr htype) h
  rw [hc]
  rfl

/-- C8, amended, at a "pv" storage with the storage class "local". -/
theorem C8_storage_class_always_set_witness :
    NewPvc demoEnv sizeParse "pvc" localStorage 1 = .ok (localStorageClaim, []) ∧
    localStorageClaim.Spec.StorageClassName = some "local" :=
  ⟨rfl,
    C8_storage_class_always_set demoEnv sizeParse "pvc" localStorage 1 localStorageClaim []
      rfl rfl⟩

/-! ## Configuration defects -/

/-- C9, as stated, fails: a selector with two "=" does not make `NewPvc` fail; the claim is
returned with the first two pieces as the match label. -/
theorem C9_two_equals_counterexample :
    NewPvc demoEnv sizeParse "pvc"
        { Type_ := "pv", Size := "1Gi", Selectors := ["a=b=c"] } 1 =
      .ok ({ ObjectMeta := { Name := "pvc", Namespace := "postgres" }
             Spec :=
              { AccessModes := ["ReadWriteOnce"]
                Selector := some { MatchLabels := [("a", "b")] }
                Resources := { Requests := [("storage", "1Gi")] }
                StorageClassName := some "" } }, []) :=
  rfl

/-- C9, amended: for a storage of type "pv" and a valid index into non-empty `selectors`,
if `selectors[idx-1]` contains no "=", `NewPvc` returns no claim: it panics, with an index
out of range on the second piece of the split (or earlier, in `MustParse`, when the size is
malformed). -/
theorem C9_selector_without_equals {Q : Type} (getenv : Env) (parse : String → Option Q)
    (pvcName : String) (st : Storage) (idx : Int) (selector : String)
    (htype : st.Type_ = "pv") (hint : isInt idx)
    (hlo : 1 ≤ idx) (hhi : idx ≤ st.Selectors.length)
    (hsel : st.Selectors[(idx - 1).toNat]? = some selector)
    (hno : '=' ∉ selector.data) :
    NewPvc getenv parse pvcName st idx =
      .error (match parse st.Size with
        | some _ => .indexOutOfRange 1 1
        | none => .mustParse st.Size) := by
  cases hq : parse st.Size with
  | none => exact NewPvc_size_fault getenv parse pvcName st idx (Or.inr htype) hq
  | some q =>
    have hne : st.Selectors ≠ [] := by
      intro e
      simp [e] at hhi
      omega
    have hw : wrapInt (idx - 1) = idx - 1 := by
      apply wrapInt_of_isInt
      unfold isInt minInt maxInt at *
      omega
    rw [NewPvc_pv_selectors getenv parse pvcName st idx q htype hq hne, hw,
      index_ok _ _ _ (by omega) hsel]
    simp [Except.bind, stringsSplit, splitChars_of_not_mem _ _ hno, index_cons_zero,
      index_singleton_one]

/-- C9, amended, at `selectors = ["role:primary"]`, `idx = 1`. -/
theorem C9_selector_without_equals_witness :
    NewPvc demoEnv sizeParse "pvc"
        { Type_ := "pv", Size := "1Gi", Selectors := ["role:primary"] } 1 =
      .error (.indexOutOfRange 1 1) :=
  C9_selector_without_equals demoEnv sizeParse "pvc"
    { Type_ := "pv", Size := "1Gi", Selectors := ["role:primary"] } 1 "role:primary"
    rfl (by decide) (by decide) (by decide) rfl (by decide)

/-- C10: for a storage of type "pv" with non-empty `selectors` and a replica index outside
`1..len(selectors)`, `NewPvc` returns no claim: it panics with an index out of range on
`selectors` (or earlier, in `MustParse`, when the size is malformed); it falls back neither
to the volumes nor to an unbound claim. -/
theorem C10_selector_index_out_of_range {Q : Type} (getenv : Env)
    (parse : String → Option Q) (pvcName : String) (st : Storage) (idx : Int)
    (htype : st.Type_ = "pv") (hne : st.Selectors ≠ []) (hint : isInt idx)
    (hslice : (st.Selectors.length : Int) ≤ maxInt)
    (hout : idx ≤ 0 ∨ (st.Selectors.length : Int) < idx) :
    NewPvc getenv parse pvcName st idx =
      .error (match parse st.Size with
        | some _ => .indexOutOfRange (wrapInt (idx - 1)) st.Selectors.length
        | none => .mustParse st.Size) := by
  cases hq : parse st.Size with
  | none => exact NewPvc_size_fault getenv parse pvcName st idx (Or.inr htype) hq
  | some q =>
    have hrange : wrapInt (idx - 1) < 0 ∨ (st.Selectors.length : Int) ≤ wrapInt (idx - 1) := by
      unfold isInt minInt maxInt at *
      unfold wrapInt
      omega
    rw [NewPvc_pv_selectors getenv parse pvcName st idx q htype hq hne,
      index_fault _ _ hrange]
    rfl

/-- C10 at `selectors = ["role=primary"]` with the indices 2 and 0. -/
theorem C10_selector_index_out_of_range_witness :
    NewPvc demoEnv sizeParse "pvc"
        { Type_ := "pv", Size := "1Gi", Selectors := ["role=primary"], Volumes := ["a", "b"] } 2 =
      .error (.indexOutOfRange 1 1) ∧
    NewPvc demoEnv sizeParse "pvc"
        { Type_ := "pv", Size := "1Gi", Selectors := ["role=primary"], Volumes := ["a", "b"] } 0 =
      .error (.indexOutOfRange (-1) 1) :=
  ⟨C10_selector_index_out_of_range demoEnv sizeParse "pvc"
      { Type_ := "pv", Size := "1Gi", Selectors := ["role=primary"], Volumes := ["a", "b"] } 2
      rfl (by decide) (by decide) (by decide) (by decide),
    C10_selector_index_out_of_range demoEnv sizeParse "pvc"
      { Type_ := "pv", Size := "1Gi", Selectors := ["role=primary"], Volumes := ["a", "b"] } 0
      rfl (by decide) (by decide) (by decide) (by decide)⟩

/-! ## Closed forms of the deployment builders -/

theorem NewBackupDaemonDeployment_nil_resources {A S R : Type} (getenv : Env)
    (cfg : BackupDaemon A S R) (pgClusterName serviceAccountName : String)
    (hres : cfg.Resources = none) :
    NewBackupDaemonDeployment getenv cfg pgClusterName serviceAccountName =
      .error .nilDereference := by
  simp [NewBackupDaemonDeployment, hres, deref, bind, Except.bind]

theorem NewBackupDaemonDeployment_empty_nodes {A S R : Type} (getenv : Env)
    (cfg : BackupDaemon A S R) (pgClusterName serviceAccountName : String) (r : R)
    (hres : cfg.Resources = some r) (hnodes : cfg.Storage.Nodes = some []) :
    NewBackupDaemonDeployment getenv cfg pgClusterName serviceAccountName =
      .error (.indexOutOfRange 0 0) := by
  simp [NewBackupDaemonDeployment, hres, hnodes, deref, index, bind, Except.bind]

theorem NewBackupDaemonDeployment_built {A S R : Type} (getenv : Env)
    (cfg : BackupDaemon A S R) (pgClusterName serviceAccountName : String) (r : R)
    (hres : cfg.Resources = some r) (hnodes : cfg.Storage.Nodes ≠ some []) :
    NewBackupDaemonDeployment getenv cfg pgClusterName serviceAccountName =
      .ok (backupDaemonBuilt getenv cfg pgClusterName serviceAccountName r) := by
  rcases hn : cfg.Storage.Nodes with _ | nodes
  · by_cases hp : cfg.PriorityClassName = "" <;>
    by_cases ht : (cfg.Storage.Type_ = "ephemeral" ∨ cfg.Storage.Type_ = "s3") <;>
    rcases he : cfg.ExternalPv with _ | ext <;>
    simp [NewBackupDaemonDeployment, backupDaemonBuilt, primaryVolume, hres, hn, hp, ht, he,
      deref, index, bind, Except.bind, pure, Except.pure, backupDaemonDeploymentLiteral]
  · cases nodes with
    | nil => exact absurd hn hnodes
    | cons node rest =>
      by_cases hp : cfg.PriorityClassName = "" <;>
      by_cases ht : (cfg.Storage.Type_ = "ephemeral" ∨ cfg.Storage.Type_ = "s3") <;>
      rcases he : cfg.ExternalPv with _ | ext <;>
      simp [NewBackupDaemonDeployment, backupDaemonBuilt, primaryVolume, hres, hn, hp, ht, he,
        deref, index, bind, Except.bind, pure, Except.pure, backupDaemonDeploymentLiteral]

theorem NewMonitoringDeployment_nil_resources {A S R : Type} (getenv : Env)
    (cfg : MetricCollector A S R) (pgcluster serviceAccountName : String)
    (hres : cfg.Resources = none) :
    NewMonitoringDeployment getenv cfg pgcluster serviceAccountName =
      .error .nilDereference := by
  simp [NewMonitoringDeployment, hres, deref, bind, Except.bind]

theorem NewMonitoringDeployment_built {A S R : Type} (getenv : Env)
    (cfg : MetricCollector A S R) (pgcluster serviceAccountName : String) (r : R)
    (hres : cfg.Resources = some r) :
    NewMonitoringDeployment getenv cfg pgcluster serviceAccountName =
      .ok (monitoringBuilt getenv cfg pgcluster serviceAccountName r) := by
  by_cases hp : cfg.PriorityClassName = "" <;>
  by_cases hi : cfg.InfluxDbHost = "" <;>
  simp [NewMonitoringDeployment, monitoringBuilt, hres, hp, hi, deref, index, bind,
    Except.bind, pure, Except.pure, monitoringDeploymentLiteral]

/-! ## Lemmas on maps -/

theorem mapGet_mapSet (m : StringMap) (k v k' : String) :
    mapGet (mapSet m k v) k' = if k = k' then some v else mapGet m k' := by
  induction m with
  | nil => simp [mapSet, mapGet]
  | cons e rest ih =>
    obtain ⟨k1, v1⟩ := e
    by_cases h1 : k1 = k
    · subst h1
      by_cases h : k1 = k' <;> simp [mapSet, mapGet, h]
    · by_cases h : k1 = k'
      · subst h
        have h2 : ¬ k = k1 := fun e => h1 e.symm
        simp [mapSet, mapGet, h1, h2]
      · simp [mapSet, mapGet, h1, h, ih]

theorem mapGet_eq_none (m : StringMap) (k : String) (h : mapGet m k = none) :
    ∀ e ∈ m, e.1 ≠ k := by
  induction m with
  | nil => simp
  | cons e rest ih =>
    obtain ⟨k1, v1⟩ := e
    by_cases h1 : k1 = k
    · simp [mapGet, h1] at h
    · simp [mapGet, h1] at h
      intro e he
      rcases List.mem_cons.mp he with rfl | he
      · exact h1
      · exact ih h e he

theorem mapGet_foldl_other (es : StringMap) (res : StringMap) (k : String)
    (h : ∀ e ∈ es, e.1 ≠ k) :
    mapGet (es.foldl (fun res kv => mapSet res kv.1 kv.2) res) k = mapGet res k := by
  induction es generalizing res with
  | nil => rfl
  | cons e rest ih =>
    have h1 : e.1 ≠ k := h e (List.mem_cons_self _ _)
    rw [List.foldl_cons, ih _ (fun e he => h e (List.mem_cons_of_mem _ he)), mapGet_mapSet]
    simp [h1]

theorem mapGet_foldl_same (es : StringMap) (res : StringMap) (k v : String)
    (hwf : mapWellFormed es) (h : mapGet es k = some v) :
    mapGet (es.foldl (fun res kv => mapSet res kv.1 kv.2) res) k = some v := by
  induction es generalizing res with
  | nil => simp [mapGet] at h
  | cons e rest ih =>
    obtain ⟨k1, v1⟩ := e
    have hnd : k1 ∉ rest.map Prod.fst ∧ mapWellFormed rest := by
      simpa [mapWellFormed] using hwf
    by_cases h1 : k1 = k
    · have hv : v1 = v := by
        simpa [mapGet, h1] using h
      have hrest : ∀ e ∈ rest, e.1 ≠ k := by
        intro e he heq
        exact hnd.1 (by rw [h1, ← heq]; exact List.mem_map_of_mem _ he)
      rw [List.foldl_cons, mapGet_foldl_other _ _ _ hrest, mapGet_mapSet]
      simp [h1, hv]
    · have hr : mapGet rest k = some v := by
        simpa [mapGet, h1] using h
      rw [List.foldl_cons]
      exact ih _ hnd.2 hr

theorem mem_keys_mapSet (m : StringMap) (k v x : String)
    (hx : x ∈ (mapSet m k v).map Prod.fst) : x = k ∨ x ∈ m.map Prod.fst := by
  induction m with
  | nil => simpa [mapSet] using hx
  | cons e rest ih =>
    obtain ⟨k1, v1⟩ := e
    by_cases h1 : k1 = k
    · simp only [mapSet, h1, if_true, List.map_cons, List.mem_cons] at hx ⊢
      rcases hx with hx | hx
      · exact Or.inl hx
      · exact Or.inr (Or.inr hx)
    · simp only [mapSet, h1, if_false, List.map_cons, List.mem_cons] at hx ⊢
      rcases hx with hx | hx
      · exact Or.inr (Or.inl hx)
      · rcases ih hx with h2 | h2
        · exact Or.inl h2
        · exact Or.inr (Or.inr h2)

theorem mapWellFormed_mapSet (m : StringMap) (k v : String) (h : mapWellFormed m) :
    mapWellFormed (mapSet m k v) := by
  induction m with
  | nil => simp [mapSet, mapWellFormed]
  | cons e rest ih =>
    obtain ⟨k1, v1⟩ := e
    have hnd : k1 ∉ rest.map Prod.fst ∧ mapWellFormed rest := by
      simpa [mapWellFormed] using h
    by_cases h1 : k1 = k
    · simp only [mapSet, h1, if_true]
      simp only [mapWellFormed, List.map_cons, List.nodup_cons]
      exact ⟨by rw [← h1]; exact hnd.1, hnd.2⟩
    · simp only [mapSet, h1, if_false]
      simp only [mapWellFormed, List.map_cons, List.nodup_cons]
      refine ⟨?_, ih hnd.2⟩
      intro hmem
      rcases mem_keys_mapSet rest k v k1 hmem with h2 | h2
      · exact h1 h2
      · exact hnd.1 h2
theorem mapWellFormed_foldl (es res : StringMap) (h : mapWellFormed res) :
    mapWellFormed (es.foldl (fun res kv => mapSet res kv.1 kv.2) res) := by
  induction es generalizing res with
  | nil => exact h
  | cons e rest ih => exact ih _ (mapWellFormed_mapSet _ _ _ h)

/-- Writing the arguments of `Merge` into a map that already has entries. -/
theorem mergeInto_get_absent (ms : List StringMap) (res : StringMap) (k : String)
    (h : ∀ m ∈ ms, mapGet m k = none) :
    mapGet (ms.foldl (fun res m => m.foldl (fun res kv => mapSet res kv.1 kv.2) res) res) k =
      mapGet res k := by
  induction ms generalizing res with
  | nil => rfl
  | cons m rest ih =>
    rw [List.foldl_cons, ih _ (fun m hm => h m (List.mem_cons_of_mem _ hm))]
    exact mapGet_foldl_other _ _ _ (mapGet_eq_none _ _ (h m (List.mem_cons_self _ _)))

theorem mergeInto_get_last (before after : List StringMap) (m res : StringMap) (k v : String)
    (hwf : mapWellFormed m) (hm : mapGet m k = some v)
    (hafter : ∀ m' ∈ after, mapGet m' k = none) :
    mapGet ((before ++ m :: after).foldl
      (fun res m => m.foldl (fun res kv => mapSet res kv.1 kv.2) res) res) k = some v := by
  rw [List.foldl_append, List.foldl_cons, mergeInto_get_absent _ _ _ hafter]
  exact mapGet_foldl_same _ _ _ _ hwf hm

theorem mergeInto_wellFormed (ms : List StringMap) (res : StringMap) (h : mapWellFormed res) :
    mapWellFormed
      (ms.foldl (fun res m => m.foldl (fun res kv => mapSet res kv.1 kv.2) res) res) := by
  induction ms generalizing res with
  | nil => exact h
  | cons m rest ih => exact ih _ (mapWellFormed_foldl _ _ h)

theorem NewBackupDaemonDeployment_inv {A S R : Type} (getenv : Env)
    (cfg : BackupDaemon A S R) (pgClusterName serviceAccountName : String)
    (d : Deployment A S R)
    (h : NewBackupDaemonDeployment getenv cfg pgClusterName serviceAccountName = .ok d) :
    ∃ r, cfg.Resources = some r ∧ cfg.Storage.Nodes ≠ some [] ∧
      d = backupDaemonBuilt getenv cfg pgClusterName serviceAccountName r := by
  cases hres : cfg.Resources with
  | none =>
    rw [NewBackupDaemonDeployment_nil_resources getenv cfg _ _ hres] at h
    cases h
  | some r =>
    by_cases hn : cfg.Storage.Nodes = some []
    · rw [NewBackupDaemonDeployment_empty_nodes getenv cfg _ _ r hres hn] at h
      cases h
    · rw [NewBackupDaemonDeployment_built getenv cfg _ _ r hres hn] at h
      cases h
      exact ⟨r, rfl, hn, rfl⟩

/-! ## Secret names -/

/-- C11: `GetRootSecretName` and `GetReplSecretName` return the "gpdb" names exactly when
the cluster variant is the string "gpdb", and the default names "postgres-credentials" and
"replicator-credentials" for every other string. -/
theorem C11_secret_names (v : String) :
    (GetRootSecretName v = "gpdb-pg-root-credentials" ↔ v = "gpdb") ∧
    (GetReplSecretName v = "gpdb-pg-repl-credentials" ↔ v = "gpdb") ∧
    (v ≠ "gpdb" →
      GetRootSecretName v = "postgres-credentials" ∧
      GetReplSecretName v = "replicator-credentials") := by
  by_cases h : v = "gpdb"
  · subst h
    simp [GetRootSecretName, GetReplSecretName]
  · simp [GetRootSecretName, GetReplSecretName, h]

/-- C11 at the strings "", "GPDB" and "gpdb " (with a trailing blank). -/
theorem C11_secret_names_witness :
    (GetRootSecretName "" = "postgres-credentials" ∧
      GetReplSecretName "" = "replicator-credentials") ∧
    (GetRootSecretName "GPDB" = "postgres-credentials" ∧
      GetReplSecretName "GPDB" = "replicator-credentials") ∧
    (GetRootSecretName "gpdb " = "postgres-credentials" ∧
      GetReplSecretName "gpdb " = "replicator-credentials") ∧
    (GetRootSecretName "gpdb" = "gpdb-pg-root-credentials" ∧
      GetReplSecretName "gpdb" = "gpdb-pg-repl-credentials") :=
  ⟨(C11_secret_names "").2.2 (by decide), (C11_secret_names "GPDB").2.2 (by decide),
    (C11_secret_names "gpdb ").2.2 (by decide),
    (C11_secret_names "gpdb").1.mpr rfl, (C11_secret_names "gpdb").2.1.mpr rfl⟩

/-! ## Environment of the metric collector -/

/-- C12: the deployment `NewMonitoringDeployment` builds (it builds one whenever the
resources are present) has one container; when the metrics profile is not "dev" none of its
environment bindings has a name starting with "DEV_METRICS_"; when it is "dev" the
environment is a list of bindings without such a name followed by `DEV_METRICS_TIMEOUT` and
`DEV_METRICS_INTERVAL`, whose values are the decimal renderings of `devMetricsTimeout` and
`devMetricsInterval`. -/
theorem C12_dev_metrics_env {A S R : Type} (getenv : Env) (cfg : MetricCollector A S R)
    (pgcluster serviceAccountName : String) (r : R) (hres : cfg.Resources = some r) :
    ∃ d c, NewMonitoringDeployment getenv cfg pgcluster serviceAccountName = .ok d ∧
      d.Spec.Template.Spec.Containers = [c] ∧
      (cfg.MetricsProfile ≠ "dev" →
        ∀ e ∈ c.Env, startsWith e.Name "DEV_METRICS_" = false) ∧
      (cfg.MetricsProfile = "dev" →
        ∃ others, c.Env = others ++
            [ { Name := "DEV_METRICS_TIMEOUT", Value := Itoa cfg.DevMetricsTimeout },
              { Name := "DEV_METRICS_INTERVAL", Value := Itoa cfg.DevMetricsInterval } ] ∧
          ∀ e ∈ others, startsWith e.Name "DEV_METRICS_" = false) := by
  have hbase : ∀ name ∈
      ["MONITORING_USER", "MONITORING_PASSWORD", "PG_ROOT_USER", "PG_ROOT_PASSWORD",
        "INFLUXDB_USER", "INFLUXDB_PASSWORD", "NAMESPACE", "INFLUXDB_URL", "INFLUXDB_DATABASE",
        "TELEGRAF_PLUGIN_TIMEOUT", "METRIC_COLLECTION_INTERVAL",
        "METRIC_COLLECTOR_OC_EXEC_TIMEOUT", "METRICS_PROFILE", "PGCLUSTER",
        "POSTGRESQL_CREDENTIALS", "PATRONI_ENTITY_TYPE", "PGSSLMODE"],
      startsWith name "DEV_METRICS_" = false := by decide
  rw [NewMonitoringDeployment_built getenv cfg _ _ r hres]
  refine ⟨_, _, rfl, rfl, ?_, ?_⟩
  · intro hp e he
    simp only [getDevEnvs, hp, if_false, List.append_nil, List.mem_cons, List.mem_singleton,
      List.not_mem_nil, or_false] at he
    rcases he with h | h | h | h | h | h | h | h | h | h | h | h | h | h | h | h | h <;>
      (rw [h]; exact hbase _ (by simp [secretEnv, fieldEnv]))
  · intro hp
    simp only [getDevEnvs, hp, if_true]
    refine ⟨_, rfl, ?_⟩
    · intro e he
      simp only [List.mem_cons, List.mem_singleton, List.not_mem_nil, or_false] at he
      rcases he with h | h | h | h | h | h | h | h | h | h | h | h | h | h | h | h | h <;>
        (rw [h]; exact hbase _ (by simp [secretEnv, fieldEnv]))

/-- C12 at a collector with the profile "dev", timeout 30 and interval -5, and at one with
the profile "prod". -/
theorem C12_dev_metrics_env_witness :
    (∃ d c, NewMonitoringDeployment demoEnv devCollector "patroni" "sa" = .ok d ∧
      d.Spec.Template.Spec.Containers = [c] ∧
      ∃ others, c.Env = others ++
          [ { Name := "DEV_METRICS_TIMEOUT", Value := "30" },
            { Name := "DEV_METRICS_INTERVAL", Value := "-5" } ] ∧
        ∀ e ∈ others, startsWith e.Name "DEV_METRICS_" = false) ∧
    (∃ d c, NewMonitoringDeployment demoEnv prodCollector "patroni" "sa" = .ok d ∧
      d.Spec.Template.Spec.Containers = [c] ∧
      ∀ e ∈ c.Env, startsWith e.Name "DEV_METRICS_" = false) :=
  ⟨match C12_dev_metrics_env demoEnv devCollector "patroni" "sa" () rfl with
    | ⟨d, c, h1, h2, _, h4⟩ => ⟨d, c, h1, h2, h4 rfl⟩,
   match C12_dev_metrics_env demoEnv prodCollector "patroni" "sa" () rfl with
    | ⟨d, c, h1, h2, h3, _⟩ => ⟨d, c, h1, h2, h3 (by decide)⟩⟩

/-! ## Volumes of the backup daemon -/

/-- C13, as stated, fails: with the storage type "s3" and an external volume configured the
deployment has a volume with a persistent-volume-claim source, "external-backup-data". -/
theorem C13_external_claim_counterexample :
    s3Daemon.Storage.Type_ = "s3" ∧
    ∃ d, NewBackupDaemonDeployment demoEnv s3Daemon "patroni" "sa" = .ok d ∧
      d.Spec.Template.Spec.Volumes =
        [ { Name := "backup-data", VolumeSource := { EmptyDir := some {} } },
          { Name := "external-backup-data"
            VolumeSource :=
              { PersistentVolumeClaim :=
                  some { ClaimName := "external-postgres-backup-pvc", ReadOnly := false } } } ] ∧
      ∃ v ∈ d.Spec.Template.Spec.Volumes, v.VolumeSource.PersistentVolumeClaim ≠ none :=
  ⟨rfl, _, rfl, rfl, _, List.mem_cons_of_mem _ (List.mem_cons_self _ _), by decide⟩

/-- C13, amended: for the storage types "ephemeral" and "s3" the deployment
`NewBackupDaemonDeployment` builds (it builds one whenever the resources are present and the
node list is not present-but-empty) contains an empty-directory volume; it contains no
volume with a persistent-volume-claim source when no external volume is configured, and
otherwise the only such volume is the external one, "external-backup-data". -/
theorem C13_ephemeral_volumes {A S R : Type} (getenv : Env) (cfg : BackupDaemon A S R)
    (pgClusterName serviceAccountName : String) (r : R)
    (hres : cfg.Resources = some r) (hnodes : cfg.Storage.Nodes ≠ some [])
    (htype : cfg.Storage.Type_ = "ephemeral" ∨ cfg.Storage.Type_ = "s3") :
    ∃ d, NewBackupDaemonDeployment getenv cfg pgClusterName serviceAccountName = .ok d ∧
      (∃ v ∈ d.Spec.Template.Spec.Volumes, v.VolumeSource.EmptyDir ≠ none) ∧
      (cfg.ExternalPv = none →
        ∀ v ∈ d.Spec.Template.Spec.Volumes, v.VolumeSource.PersistentVolumeClaim = none) ∧
      (∀ v ∈ d.Spec.Template.Spec.Volumes,
        v.VolumeSource.PersistentVolumeClaim ≠ none → v = getExternalBackupVolume) := by
  rw [NewBackupDaemonDeployment_built getenv cfg _ _ r hres hnodes]
  refine ⟨_, rfl, ?_, ?_, ?_⟩
  · exact ⟨primaryVolume cfg.Storage.Type_, List.mem_cons_self _ _, by simp [primaryVolume, htype]⟩
  · intro he v hv
    simp only [backupDaemonBuilt, he, ne_eq, not_true_eq_false, if_false, List.mem_singleton]
      at hv
    rw [hv]
    simp [primaryVolume, htype]
  · intro v hv hpvc
    simp only [backupDaemonBuilt, List.mem_cons] at hv
    rcases hv with hv | hv
    · rw [hv] at hpvc
      simp [primaryVolume, htype] at hpvc
    · by_cases he : cfg.ExternalPv = none
      · simp [he] at hv
      · simpa [he] using hv

/-- C13, amended, at an "ephemeral" daemon without an external volume. -/
theorem C13_ephemeral_volumes_witness :
    ∃ d, NewBackupDaemonDeployment demoEnv { pvDaemon with Storage := { Type_ := "ephemeral" } }
        "patroni" "sa" = .ok d ∧
      (∃ v ∈ d.Spec.Template.Spec.Volumes, v.VolumeSource.EmptyDir ≠ none) ∧
      (∀ v ∈ d.Spec.Template.Spec.Volumes, v.VolumeSource.PersistentVolumeClaim = none) :=
  match C13_ephemeral_volumes demoEnv { pvDaemon with Storage := { Type_ := "ephemeral" } }
      "patroni" "sa" () rfl (by decide) (Or.inl rfl) with
  | ⟨d, h1, h2, h3, _⟩ => ⟨d, h1, h2, h3 rfl⟩

/-- C14: the first volume of the pod `NewBackupDaemonDeployment` builds (it builds one
whenever the resources are present and the node list is not present-but-empty) is named
"backup-data"; it is an empty-directory volume exactly when the storage type is "ephemeral"
or "s3", and for every other storage type string it is the read-write persistent-claim
volume of the claim "postgres-backup-pvc". -/
theorem C14_primary_volume {A S R : Type} (getenv : Env) (cfg : BackupDaemon A S R)
    (pgClusterName serviceAccountName : String) (r : R)
    (hres : cfg.Resources = some r) (hnodes : cfg.Storage.Nodes ≠ some []) :
    ∃ d v rest, NewBackupDaemonDeployment getenv cfg pgClusterName serviceAccountName = .ok d ∧
      d.Spec.Template.Spec.Volumes = v :: rest ∧
      v.Name = "backup-data" ∧
      (v.VolumeSource.EmptyDir ≠ none ↔
        (cfg.Storage.Type_ = "ephemeral" ∨ cfg.Storage.Type_ = "s3")) ∧
      (cfg.Storage.Type_ = "ephemeral" ∨ cfg.Storage.Type_ = "s3" →
        v.VolumeSource = { EmptyDir := some {} }) ∧
      (¬ (cfg.Storage.Type_ = "ephemeral" ∨ cfg.Storage.Type_ = "s3") →
        v.VolumeSource =
          { PersistentVolumeClaim :=
              some { ClaimName := "postgres-backup-pvc", ReadOnly := false } }) := by
  rw [NewBackupDaemonDeployment_built getenv cfg _ _ r hres hnodes]
  refine ⟨_, primaryVolume cfg.Storage.Type_, _, rfl, rfl, ?_, ?_, ?_, ?_⟩
  · by_cases ht : cfg.Storage.Type_ = "ephemeral" ∨ cfg.Storage.Type_ = "s3" <;>
      simp [primaryVolume, ht]
  · by_cases ht : cfg.Storage.Type_ = "ephemeral" ∨ cfg.Storage.Type_ = "s3" <;>
      simp [primaryVolume, ht]
  · intro ht
    simp [primaryVolume, ht]
  · intro ht
    simp [primaryVolume, ht]

/-- C14 at a daemon with the storage type "pv": the primary volume is the claim
"postgres-backup-pvc". -/
theorem C14_primary_volume_witness :
    ∃ d v rest, NewBackupDaemonDeployment demoEnv pvDaemon "patroni" "sa" = .ok d ∧
      d.Spec.Template.Spec.Volumes = v :: rest ∧
      v.Name = "backup-data" ∧
      v.VolumeSource =
        { PersistentVolumeClaim :=
            some { ClaimName := "postgres-backup-pvc", ReadOnly := false } } :=
  match C14_primary_volume demoEnv pvDaemon "patroni" "sa" () rfl (by decide) with
  | ⟨d, v, rest, h1, h2, h3, _, _, h6⟩ => ⟨d, v, rest, h1, h2, h3, h6 (by decide)⟩

/-- C15: the external volume is added on top of the primary one, whatever the storage type:
the deployment built with `externalPv` present has the volumes and the mounts of the
deployment built from the same config with `externalPv` absent, followed by the volume
"external-backup-data" of the claim "external-postgres-backup-pvc" and the mount "/external/"
of that volume; with `externalPv` absent there is one volume and the one mount
"/backup-storage" of "backup-data". -/
theorem C15_external_pv_additive {A S R : Type} (getenv : Env) (cfg : BackupDaemon A S R)
    (pgClusterName serviceAccountName : String) (r : R) (ext : ExternalPv)
    (hres : cfg.Resources = some r) (hnodes : cfg.Storage.Nodes ≠ some []) :
    ∃ dWith dWithout cWith cWithout,
      NewBackupDaemonDeployment getenv { cfg with ExternalPv := some ext } pgClusterName
        serviceAccountName = .ok dWith ∧
      NewBackupDaemonDeployment getenv { cfg with ExternalPv := none } pgClusterName
        serviceAccountName = .ok dWithout ∧
      dWith.Spec.Template.Spec.Containers = [cWith] ∧
      dWithout.Spec.Template.Spec.Containers = [cWithout] ∧
      dWith.Spec.Template.Spec.Volumes =
        dWithout.Spec.Template.Spec.Volumes ++
          [ { Name := "external-backup-data"
              VolumeSource :=
                { PersistentVolumeClaim :=
                    some { ClaimName := "external-postgres-backup-pvc", ReadOnly := false } } } ] ∧
      cWith.VolumeMounts =
        cWithout.VolumeMounts ++ [{ MountPath := "/external/", Name := "external-backup-data" }] ∧
      dWithout.Spec.Template.Spec.Volumes.length = 1 ∧
      cWithout.VolumeMounts = [{ MountPath := "/backup-storage", Name := "backup-data" }] := by
  rw [NewBackupDaemonDeployment_built getenv { cfg with ExternalPv := some ext } _ _ r hres
      hnodes,
    NewBackupDaemonDeployment_built getenv { cfg with ExternalPv := none } _ _ r hres hnodes]
  exact ⟨_, _, _, _, rfl, rfl, rfl, rfl, rfl, rfl, rfl, rfl⟩

/-- C15 at a daemon with the storage type "s3". -/
theorem C15_external_pv_additive_witness :
    ∃ dWith dWithout cWith cWithout,
      NewBackupDaemonDeployment demoEnv { s3Daemon with ExternalPv := some { Name := "nfs" } }
        "patroni" "sa" = .ok dWith ∧
      NewBackupDaemonDeployment demoEnv { s3Daemon with ExternalPv := none } "patroni" "sa" =
        .ok dWithout ∧
      dWith.Spec.Template.Spec.Containers = [cWith] ∧
      dWithout.Spec.Template.Spec.Containers = [cWithout] ∧
      dWith.Spec.Template.Spec.Volumes =
        dWithout.Spec.Template.Spec.Volumes ++
          [ { Name := "external-backup-data"
              VolumeSource :=
                { PersistentVolumeClaim :=
                    some { ClaimName := "external-postgres-backup-pvc", ReadOnly := false } } } ] ∧
      cWith.VolumeMounts =
        cWithout.VolumeMounts ++ [{ MountPath := "/external/", Name := "external-backup-data" }] ∧
      dWithout.Spec.Template.Spec.Volumes.length = 1 ∧
      cWithout.VolumeMounts = [{ MountPath := "/backup-storage", Name := "backup-data" }] :=
  C15_external_pv_additive demoEnv s3Daemon "patroni" "sa" () { Name := "nfs" } rfl (by decide)

/-! ## Node selector -/

/-- C16: when the node list is present and non-empty the pod's node selector is the single
entry `{"kubernetes.io/hostname": nodes[0]}`, and two configs that differ only in the nodes
after the first yield the same deployment; when the node list is absent the node selector
is not set. A deployment is built in both cases whenever the resources are present. -/
theorem C16_node_selector {A S R : Type} (getenv : Env) (cfg : BackupDaemon A S R)
    (pgClusterName serviceAccountName : String) (r : R) (hres : cfg.Resources = some r) :
    (∀ node rest, cfg.Storage.Nodes = some (node :: rest) →
      ∃ d, NewBackupDaemonDeployment getenv cfg pgClusterName serviceAccountName = .ok d ∧
        d.Spec.Template.Spec.NodeSelector = [("kubernetes.io/hostname", node)]) ∧
    (∀ node rest rest',
      ∃ d,
        NewBackupDaemonDeployment getenv
          { cfg with Storage := { cfg.Storage with Nodes := some (node :: rest) } }
          pgClusterName serviceAccountName = .ok d ∧
        NewBackupDaemonDeployment getenv
          { cfg with Storage := { cfg.Storage with Nodes := some (node :: rest') } }
          pgClusterName serviceAccountName = .ok d) ∧
    (cfg.Storage.Nodes = none →
      ∃ d, NewBackupDaemonDeployment getenv cfg pgClusterName serviceAccountName = .ok d ∧
        d.Spec.Template.Spec.NodeSelector = []) := by
  refine ⟨?_, ?_, ?_⟩
  · intro node rest hn
    rw [NewBackupDaemonDeployment_built getenv cfg _ _ r hres (by rw [hn]; simp)]
    refine ⟨_, rfl, ?_⟩
    simp [backupDaemonBuilt, hn]
  · intro node rest rest'
    rw [NewBackupDaemonDeployment_built getenv
        { cfg with Storage := { cfg.Storage with Nodes := some (node :: rest) } } _ _ r hres
        (by simp),
      NewBackupDaemonDeployment_built getenv
        { cfg with Storage := { cfg.Storage with Nodes := some (node :: rest') } } _ _ r hres
        (by simp)]
    exact ⟨_, rfl, rfl⟩
  · intro hn
    rw [NewBackupDaemonDeployment_built getenv cfg _ _ r hres (by rw [hn]; simp)]
    refine ⟨_, rfl, ?_⟩
    simp [backupDaemonBuilt, hn]

/-- C16 at a daemon pinned to the nodes "node-1" and "node-2", and at one without nodes. -/
theorem C16_node_selector_witness :
    (∃ d, NewBackupDaemonDeployment demoEnv s3Daemon "patroni" "sa" = .ok d ∧
      d.Spec.Template.Spec.NodeSelector = [("kubernetes.io/hostname", "node-1")]) ∧
    (∃ d, NewBackupDaemonDeployment demoEnv pvDaemon "patroni" "sa" = .ok d ∧
      d.Spec.Template.Spec.NodeSelector = []) :=
  ⟨(C16_node_selector demoEnv s3Daemon "patroni" "sa" () rfl).1 "node-1" ["node-2"] rfl,
    (C16_node_selector demoEnv pvDaemon "patroni" "sa" () rfl).2.2 rfl⟩

/-! ## Merge of label maps -/

/-- C17: `Merge` is a last-writer-wins merge over its ordered arguments. A key absent from
every argument is absent from the result; a key whose last occurrence among the arguments
is in `m`, with the value `v`, has the value `v` in the result; hence a key is in the result
exactly when some argument has it. In `Merge(base, user)` every key of `user` has the value
`user` gives it and every key absent from `user` is as in `base`. The result is a fresh
well-formed map: the arguments are values and are not written to. -/
theorem C17_merge_last_writer_wins (ms : List StringMap) (k : String) :
    ((∀ m ∈ ms, mapGet m k = none) → mapGet (Merge ms) k = none) ∧
    (∀ before m after v, ms = before ++ m :: after → mapWellFormed m →
      mapGet m k = some v → (∀ m' ∈ after, mapGet m' k = none) →
      mapGet (Merge ms) k = some v) ∧
    ((∀ m ∈ ms, mapWellFormed m) →
      ((mapGet (Merge ms) k).isSome ↔ ∃ m ∈ ms, (mapGet m k).isSome)) ∧
    (∀ base user v, ms = [base, user] → mapWellFormed user → mapGet user k = some v →
      mapGet (Merge ms) k = some v) ∧
    (∀ base user, ms = [base, user] → mapWellFormed base → mapGet user k = none →
      mapGet (Merge ms) k = mapGet base k) ∧
    mapWellFormed (Merge ms) := by
  have hlast : ∀ before m after v, ms = before ++ m :: after → mapWellFormed m →
      mapGet m k = some v → (∀ m' ∈ after, mapGet m' k = none) →
      mapGet (Merge ms) k = some v := by
    intro before m after v hms hwf hm hafter
    rw [hms]
    exact mergeInto_get_last before after m [] k v hwf hm hafter
  have habsent : (∀ m ∈ ms, mapGet m k = none) → mapGet (Merge ms) k = none := by
    intro h
    exact mergeInto_get_absent ms [] k h
  refine ⟨habsent, hlast, ?_, ?_, ?_, ?_⟩
  · intro hwf
    constructor
    · intro hsome
      by_contra hno
      have hall : ∀ m ∈ ms, mapGet m k = none := by
        intro m hm
        cases hv : mapGet m k with
        | none => rfl
        | some v => exact absurd ⟨m, hm, by simp [hv]⟩ hno
      rw [habsent hall] at hsome
      simp at hsome
    · rintro ⟨m, hm, hsome⟩
      have hex : ∃ m ∈ ms.reverse, (mapGet m k).isSome := ⟨m, by simpa using hm, hsome⟩
      obtain ⟨revBefore, m0, revAfter, hsplit, hm0, hprev⟩ :
          ∃ l1 m0 l2, ms.reverse = l1 ++ m0 :: l2 ∧ (mapGet m0 k).isSome ∧
            ∀ m' ∈ l1, ¬ (mapGet m' k).isSome := by
        generalize ms.reverse = l at hex
        induction l with
        | nil => simp at hex
        | cons x xs ih =>
          by_cases hx : (mapGet x k).isSome
          · exact ⟨[], x, xs, rfl, hx, by simp⟩
          · obtain ⟨m1, hm1, hs1⟩ := hex
            have hm1' : m1 ∈ xs := by
              rcases List.mem_cons.mp hm1 with rfl | h
              · exact absurd hs1 hx
              · exact h
            obtain ⟨l1, m0, l2, hl, h0, hp⟩ := ih ⟨m1, hm1', hs1⟩
            refine ⟨x :: l1, m0, l2, by rw [hl]; rfl, h0, ?_⟩
            intro m' hm'
            rcases List.mem_cons.mp hm' with rfl | h
            · exact hx
            · exact hp m' h
      have hms : ms = revAfter.reverse ++ m0 :: revBefore.reverse := by
        have := congrArg List.reverse hsplit
        simpa using this
      obtain ⟨v, hv⟩ := Option.isSome_iff_exists.mp hm0
      have hm0mem : m0 ∈ ms := by
        rw [hms]
        simp
      rw [hlast _ m0 _ v hms (hwf m0 hm0mem) hv (by
        intro m' hm'
        have := hprev m' (by simpa using hm')
        simpa using this)]
      rfl
  · intro base user v hms hwf hv
    exact hlast [base] user [] v (by rw [hms]; rfl) hwf hv (by simp)
  · intro base user hms hwf hnone
    cases hb : mapGet base k with
    | none =>
      apply habsent
      intro m hm
      rw [hms] at hm
      rcases List.mem_cons.mp hm with rfl | hm
      · exact hb
      · rcases List.mem_cons.mp hm with rfl | hm
        · exact hnone
        · cases hm
    | some v =>
      exact hlast [] base [user] v (by rw [hms]; rfl) hwf hb (by simpa using hnone)
  · exact mergeInto_wellFormed ms [] (by simp [mapWellFormed])

/-- C17 at the labels of the backup daemon merged with user labels that override "app" and
add "tier". -/
theorem C17_merge_last_writer_wins_witness :
    Merge [BackupDaemonLabels, [("app", "x"), ("tier", "db")]] =
      [("app", "x"), ("name", "postgres-backup-daemon"), ("tier", "db")] ∧
    mapGet (Merge [BackupDaemonLabels, [("app", "x"), ("tier", "db")]]) "app" = some "x" ∧
    mapGet (Merge [BackupDaemonLabels, [("app", "x"), ("tier", "db")]]) "name" =
      mapGet BackupDaemonLabels "name" ∧
    mapGet (Merge [BackupDaemonLabels, [("app", "x"), ("tier", "db")]]) "zone" = none :=
  ⟨rfl,
    (C17_merge_last_writer_wins [BackupDaemonLabels, [("app", "x"), ("tier", "db")]] "app").2.2.2.1
      BackupDaemonLabels [("app", "x"), ("tier", "db")] "x" rfl (by decide) rfl,
    (C17_merge_last_writer_wins [BackupDaemonLabels, [("app", "x"), ("tier", "db")]]
      "name").2.2.2.2.1 BackupDaemonLabels [("app", "x"), ("tier", "db")] rfl (by decide) rfl,
    (C17_merge_last_writer_wins [BackupDaemonLabels, [("app", "x"), ("tier", "db")]] "zone").1
      (by decide)⟩

/-! ## Fixed parts of the deployments -/

/-- C18: the deployment `NewBackupDaemonDeployment` builds (it builds one whenever the
resources are present and the node list is not present-but-empty) has exactly one container,
whose liveness probe and readiness probe are both HTTP GET "/v2/health" on port 8080 with
initial delay 20, period 10, failure threshold 30, timeout 5 and success threshold 1,
whatever the config, the cluster variant and the service account. -/
theorem C18_probes_fixed {A S R : Type} (getenv : Env) (cfg : BackupDaemon A S R)
    (pgClusterName serviceAccountName : String) (r : R)
    (hres : cfg.Resources = some r) (hnodes : cfg.Storage.Nodes ≠ some []) :
    ∃ d c, NewBackupDaemonDeployment getenv cfg pgClusterName serviceAccountName = .ok d ∧
      d.Spec.Template.Spec.Containers = [c] ∧
      c.LivenessProbe =
        some
          { ProbeHandler := { HTTPGet := some { Path := "/v2/health", Port := .int 8080 } }
            InitialDelaySeconds := 20
            PeriodSeconds := 10
            FailureThreshold := 30
            TimeoutSeconds := 5
            SuccessThreshold := 1 } ∧
      c.ReadinessProbe =
        some
          { ProbeHandler := { HTTPGet := some { Path := "/v2/health", Port := .int 8080 } }
            InitialDelaySeconds := 20
            PeriodSeconds := 10
            FailureThreshold := 30
            TimeoutSeconds := 5
            SuccessThreshold := 1 } := by
  rw [NewBackupDaemonDeployment_built getenv cfg _ _ r hres hnodes]
  exact ⟨_, _, rfl, rfl, rfl, rfl⟩

/-- C18 at a daemon with an "s3" storage, pinned nodes and an external volume. -/
theorem C18_probes_fixed_witness :
    ∃ d c, NewBackupDaemonDeployment demoEnv s3Daemon "gpdb" "sa" = .ok d ∧
      d.Spec.Template.Spec.Containers = [c] ∧
      c.LivenessProbe =
        some
          { ProbeHandler := { HTTPGet := some { Path := "/v2/health", Port := .int 8080 } }
            InitialDelaySeconds := 20
            PeriodSeconds := 10
            FailureThreshold := 30
            TimeoutSeconds := 5
            SuccessThreshold := 1 } ∧
      c.ReadinessProbe =
        some
          { ProbeHandler := { HTTPGet := some { Path := "/v2/health", Port := .int 8080 } }
            InitialDelaySeconds := 20
            PeriodSeconds := 10
            FailureThreshold := 30
            TimeoutSeconds := 5
            SuccessThreshold := 1 } :=
  C18_probes_fixed demoEnv s3Daemon "gpdb" "sa" () rfl (by decide)

/-- C19: the update strategy depends on the component only: every deployment
`NewBackupDaemonDeployment` builds has the strategy type "Recreate" and every deployment
`NewMonitoringDeployment` builds has the strategy type "RollingUpdate"; the former builds one
whenever the resources are present and the node list is not present-but-empty, the latter
whenever the resources are present. -/
theorem C19_update_strategy {A S R : Type} (getenv : Env)
    (pgClusterName serviceAccountName : String) :
    (∀ (cfg : BackupDaemon A S R) d,
      NewBackupDaemonDeployment getenv cfg pgClusterName serviceAccountName = .ok d →
        d.Spec.Strategy.Type_ = "Recreate") ∧
    (∀ (cfg : BackupDaemon A S R) r, cfg.Resources = some r → cfg.Storage.Nodes ≠ some [] →
      ∃ d, NewBackupDaemonDeployment getenv cfg pgClusterName serviceAccountName = .ok d ∧
        d.Spec.Strategy.Type_ = "Recreate") ∧
    (∀ (cfg : MetricCollector A S R) d,
      NewMonitoringDeployment getenv cfg pgClusterName serviceAccountName = .ok d →
        d.Spec.Strategy.Type_ = "RollingUpdate") ∧
    (∀ (cfg : MetricCollector A S R) r, cfg.Resources = some r →
      ∃ d, NewMonitoringDeployment getenv cfg pgClusterName serviceAccountName = .ok d ∧
        d.Spec.Strategy.Type_ = "RollingUpdate") := by
  refine ⟨?_, ?_, ?_, ?_⟩
  · intro cfg d h
    obtain ⟨r, -, -, hd⟩ := NewBackupDaemonDeployment_inv getenv cfg _ _ d h
    rw [hd]
    rfl
  · intro cfg r hres hnodes
    rw [NewBackupDaemonDeployment_built getenv cfg _ _ r hres hnodes]
    exact ⟨_, rfl, rfl⟩
  · intro cfg d h
    cases hres : cfg.Resources with
    | none =>
      rw [NewMonitoringDeployment_nil_resources getenv cfg _ _ hres] at h
      cases h
    | some r =>
      rw [NewMonitoringDeployment_built getenv cfg _ _ r hres] at h
      cases h
      rfl
  · intro cfg r hres
    rw [NewMonitoringDeployment_built getenv cfg _ _ r hres]
    exact ⟨_, rfl, rfl⟩

/-- C19 at a backup daemon and at a metric collector. -/
theorem C19_update_strategy_witness :
    (∃ d, NewBackupDaemonDeployment demoEnv s3Daemon "gpdb" "sa" = .ok d ∧
      d.Spec.Strategy.Type_ = "Recreate") ∧
    (∃ d, NewMonitoringDeployment demoEnv devCollector "gpdb" "sa" = .ok d ∧
      d.Spec.Strategy.Type_ = "RollingUpdate") :=
  ⟨(C19_update_strategy demoEnv "gpdb" "sa").2.1 s3Daemon () rfl (by decide),
    (C19_update_strategy demoEnv "gpdb" "sa").2.2.2 devCollector () rfl⟩

/-! ## Static assets -/

/-- C20: `GetConfigMapByName` is a total function: it returns a config map named `name`
whose data is the single entry under `key`; the value is the content of the file
"/opt/operator/<name>" when the read succeeds, and the empty string, with the failure
logged, when the read fails. -/
theorem C20_config_map_by_name (getenv : Env) (fs : String → Except String String)
    (name key : String) :
    (GetConfigMapByName getenv fs name key).1.ObjectMeta.Name = name ∧
    (∀ content, fs ("/opt/operator/" ++ name) = .ok content →
      (GetConfigMapByName getenv fs name key).1.Data = [(key, content)] ∧
      (GetConfigMapByName getenv fs name key).2 = []) ∧
    (∀ e, fs ("/opt/operator/" ++ name) = .error e →
      (GetConfigMapByName getenv fs name key).1.Data = [(key, "")] ∧
      (GetConfigMapByName getenv fs name key).2 = ["Failed to read from file"]) := by
  refine ⟨?_, ?_, ?_⟩
  · cases h : fs ("/opt/operator/" ++ name) <;> simp [GetConfigMapByName, ReadFile, h]
  · intro content h
    simp [GetConfigMapByName, ReadFile, h]
  · intro e h
    simp [GetConfigMapByName, ReadFile, h]

/-- C20 at a file that exists and at one that does not. -/
theorem C20_config_map_by_name_witness :
    (GetConfigMapByName demoEnv demoFiles "telegraf" "telegraf.conf").1 =
      { ObjectMeta := { Name := "telegraf", Namespace := "postgres" }
        Data := [("telegraf.conf", "[agent]")] } ∧
    (GetConfigMapByName demoEnv demoFiles "missing" "telegraf.conf").1.Data =
      [("telegraf.conf", "")] ∧
    (GetConfigMapByName demoEnv demoFiles "missing" "telegraf.conf").2 =
      ["Failed to read from file"] :=
  ⟨rfl,
    ((C20_config_map_by_name demoEnv demoFiles "missing" "telegraf.conf").2.2 "no such file"
      rfl).1,
    ((C20_config_map_by_name demoEnv demoFiles "missing" "telegraf.conf").2.2 "no such file"
      rfl).2⟩

/-! ## Environment of the backup daemon -/

/-- C21, as stated, fails: with the flags `allowPrefix`, `encryption` and
`retainArchiveSettings` set, the values of `ALLOW_PREFIX`, `ENCRYPTION` and
`RETAIN_ARCHIVE_SETTINGS` are "true", in lower case, not "True". -/
theorem C21_lowercase_counterexample :
    flagsDaemon.AllowPrefix = true ∧ flagsDaemon.Encryption = true ∧
    flagsDaemon.RetainArchiveSettings = true ∧
    ∃ d c, NewBackupDaemonDeployment demoEnv flagsDaemon "patroni" "sa" = .ok d ∧
      d.Spec.Template.Spec.Containers = [c] ∧
      envValue c.Env "ALLOW_PREFIX" = some "true" ∧
      envValue c.Env "ENCRYPTION" = some "true" ∧
      envValue c.Env "RETAIN_ARCHIVE_SETTINGS" = some "true" ∧
      envValue c.Env "ALLOW_PREFIX" ≠ some "True" :=
  ⟨rfl, rfl, rfl, _, _, rfl, rfl, rfl, rfl, rfl, by decide⟩

/-- C21, amended: in the deployment `NewBackupDaemonDeployment` builds (it builds one
whenever the resources are present and the node list is not present-but-empty) the values of
`ALLOW_PREFIX`, `ENCRYPTION` and `RETAIN_ARCHIVE_SETTINGS` are the `strconv.FormatBool`
renderings of the flags, "true" and "false" in lower case, and the value of `AUTH` is
always "False". -/
theorem C21_boolean_rendering {A S R : Type} (getenv : Env) (cfg : BackupDaemon A S R)
    (pgClusterName serviceAccountName : String) (r : R)
    (hres : cfg.Resources = some r) (hnodes : cfg.Storage.Nodes ≠ some []) :
    ∃ d c, NewBackupDaemonDeployment getenv cfg pgClusterName serviceAccountName = .ok d ∧
      d.Spec.Template.Spec.Containers = [c] ∧
      envValue c.Env "ALLOW_PREFIX" = some (if cfg.AllowPrefix then "true" else "false") ∧
      envValue c.Env "ENCRYPTION" = some (if cfg.Encryption then "true" else "false") ∧
      envValue c.Env "RETAIN_ARCHIVE_SETTINGS" =
        some (if cfg.RetainArchiveSettings then "true" else "false") ∧
      envValue c.Env "AUTH" = some "False" := by
  rw [NewBackupDaemonDeployment_built getenv cfg _ _ r hres hnodes]
  exact ⟨_, _, rfl, rfl, rfl, rfl, rfl, rfl⟩

/-- C21, amended, at a daemon with no flag set. -/
theorem C21_boolean_rendering_witness :
    ∃ d c, NewBackupDaemonDeployment demoEnv pvDaemon "patroni" "sa" = .ok d ∧
      d.Spec.Template.Spec.Containers = [c] ∧
      envValue c.Env "ALLOW_PREFIX" = some "false" ∧
      envValue c.Env "ENCRYPTION" = some "false" ∧
      envValue c.Env "RETAIN_ARCHIVE_SETTINGS" = some "false" ∧
      envValue c.Env "AUTH" = some "False" :=
  C21_boolean_rendering demoEnv pvDaemon "patroni" "sa" () rfl (by decide)

/-- C22: the names of the environment bindings do not depend on the input and do not
collide. For every two backup-daemon configs (with their cluster variants and service
accounts) the built containers have the same sequence of binding names, the fixed list
`backupDaemonEnvNames`, in which no name occurs twice; and in the container of every
metric-collector deployment, for the profile "dev" as for any other, no binding name occurs
twice. A deployment is built whenever the resources are present and, for the backup daemon,
the node list is not present-but-empty. -/
theorem C22_env_names {A S R : Type} (getenv : Env) :
    (∀ (cfg₁ cfg₂ : BackupDaemon A S R) (variant₁ variant₂ account₁ account₂ : String)
        (r₁ r₂ : R),
      cfg₁.Resources = some r₁ → cfg₁.Storage.Nodes ≠ some [] →
      cfg₂.Resources = some r₂ → cfg₂.Storage.Nodes ≠ some [] →
      ∃ d₁ c₁ d₂ c₂,
        NewBackupDaemonDeployment getenv cfg₁ variant₁ account₁ = .ok d₁ ∧
        NewBackupDaemonDeployment getenv cfg₂ variant₂ account₂ = .ok d₂ ∧
        d₁.Spec.Template.Spec.Containers = [c₁] ∧
        d₂.Spec.Template.Spec.Containers = [c₂] ∧
        c₁.Env.map (fun e => e.Name) = backupDaemonEnvNames ∧
        c₂.Env.map (fun e => e.Name) = c₁.Env.map (fun e => e.Name) ∧
        (c₁.Env.map (fun e => e.Name)).Nodup) ∧
    (∀ (cfg : MetricCollector A S R) (pgcluster account : String) (r : R),
      cfg.Resources = some r →
      ∃ d c,
        NewMonitoringDeployment getenv cfg pgcluster account = .ok d ∧
        d.Spec.Template.Spec.Containers = [c] ∧
        (c.Env.map (fun e => e.Name)).Nodup) := by
  constructor
  · intro cfg₁ cfg₂ variant₁ variant₂ account₁ account₂ r₁ r₂ hres₁ hnodes₁ hres₂ hnodes₂
    rw [NewBackupDaemonDeployment_built getenv cfg₁ _ _ r₁ hres₁ hnodes₁,
      NewBackupDaemonDeployment_built getenv cfg₂ _ _ r₂ hres₂ hnodes₂]
    refine ⟨_, _, _, _, rfl, rfl, rfl, rfl, rfl, rfl, ?_⟩
    show backupDaemonEnvNames.Nodup
    decide
  · intro cfg pgcluster account r hres
    rw [NewMonitoringDeployment_built getenv cfg _ _ r hres]
    refine ⟨_, _, rfl, rfl, ?_⟩
    by_cases hp : cfg.MetricsProfile = "dev"
    · have hnames : ∀ pre : List EnvVar, (pre ++ getDevEnvs cfg).map (fun e => e.Name) =
          pre.map (fun e => e.Name) ++ ["DEV_METRICS_TIMEOUT", "DEV_METRICS_INTERVAL"] := by
        intro pre
        simp [getDevEnvs, hp]
      show (List.map (fun e => e.Name) (_ ++ getDevEnvs cfg)).Nodup
      rw [hnames]
      show (["MONITORING_USER", "MONITORING_PASSWORD", "PG_ROOT_USER", "PG_ROOT_PASSWORD",
        "INFLUXDB_USER", "INFLUXDB_PASSWORD", "NAMESPACE", "INFLUXDB_URL", "INFLUXDB_DATABASE",
        "TELEGRAF_PLUGIN_TIMEOUT", "METRIC_COLLECTION_INTERVAL",
        "METRIC_COLLECTOR_OC_EXEC_TIMEOUT", "METRICS_PROFILE", "PGCLUSTER",
        "POSTGRESQL_CREDENTIALS", "PATRONI_ENTITY_TYPE", "PGSSLMODE"] ++ ["DEV_METRICS_TIMEOUT", "DEV_METRICS_INTERVAL"]).Nodup
      decide
    · have hnames : ∀ pre : List EnvVar, (pre ++ getDevEnvs cfg).map (fun e => e.Name) =
          pre.map (fun e => e.Name) := by
        intro pre
        simp [getDevEnvs, hp]
      show (List.map (fun e => e.Name) (_ ++ getDevEnvs cfg)).Nodup
      rw [hnames]
      show (["MONITORING_USER", "MONITORING_PASSWORD", "PG_ROOT_USER", "PG_ROOT_PASSWORD",
        "INFLUXDB_USER", "INFLUXDB_PASSWORD", "NAMESPACE", "INFLUXDB_URL", "INFLUXDB_DATABASE",
        "TELEGRAF_PLUGIN_TIMEOUT", "METRIC_COLLECTION_INTERVAL",
        "METRIC_COLLECTOR_OC_EXEC_TIMEOUT", "METRICS_PROFILE", "PGCLUSTER",
        "POSTGRESQL_CREDENTIALS", "PATRONI_ENTITY_TYPE", "PGSSLMODE"]).Nodup
      decide

/-- C22 at two different backup daemons and at a collector with the profile "dev". -/
theorem C22_env_names_witness :
    (∃ d₁ c₁ d₂ c₂,
      NewBackupDaemonDeployment demoEnv s3Daemon "gpdb" "sa" = .ok d₁ ∧
      NewBackupDaemonDeployment demoEnv flagsDaemon "patroni" "backup" = .ok d₂ ∧
      d₁.Spec.Template.Spec.Containers = [c₁] ∧
      d₂.Spec.Template.Spec.Containers = [c₂] ∧
      c₁.Env.map (fun e => e.Name) = backupDaemonEnvNames ∧
      c₂.Env.map (fun e => e.Name) = c₁.Env.map (fun e => e.Name) ∧
      (c₁.Env.map (fun e => e.Name)).Nodup) ∧
    (∃ d c,
      NewMonitoringDeployment demoEnv devCollector "gpdb" "sa" = .ok d ∧
      d.Spec.Template.Spec.Containers = [c] ∧
      (c.Env.map (fun e => e.Name)).Nodup) :=
  ⟨(C22_env_names demoEnv).1 s3Daemon flagsDaemon "gpdb" "patroni" "sa" "backup" () ()
      rfl (by decide) rfl (by decide),
    (C22_env_names demoEnv).2 devCollector "gpdb" "sa" () rfl⟩

/-! ## Access modes of the claim -/

/-- C23 does not hold of the code: for a "provisioned" storage with the valid size "1Gi"
whose only access mode is a string `getAccessModes` does not recognise, `NewPvc` returns a
claim that carries no access mode; the default `ReadWriteOnce` is applied to an empty input
only. -/
theorem C23_unknown_modes_leave_none :
    sizeParse unknownModeStorage.Size = some "1Gi" ∧
    NewPvc demoEnv sizeParse "pvc" unknownModeStorage 1 =
      .ok ({ ObjectMeta := { Name := "pvc", Namespace := "postgres" }
             Spec :=
              { AccessModes := []
                Resources := { Requests := [("storage", "1Gi")] }
                StorageClassName := some "" } },
        ["Skipping unknown AccessMode: ReadWriteOncePod"]) ∧
    getAccessModes [] = (["ReadWriteOnce"], []) :=
  ⟨rfl, rfl, rfl⟩

/-! ## Labels and selector -/

/-- C24: in the deployment built by `NewBackupDaemonDeployment` and in the one built by
`NewMonitoringDeployment` the labels of the deployment, the match labels of its selector and
the labels of the pod template are the same map, the merge of the base labels with the
`podLabels` of the config, whatever `podLabels` holds; so every label the selector asks for
is a label of the pods of the template. A deployment is built whenever the resources are
present and, for the backup daemon, the node list is not present-but-empty. -/
theorem C24_labels_agree {A S R : Type} (getenv : Env) (variant account : String) :
    (∀ (cfg : BackupDaemon A S R) (r : R),
      cfg.Resources = some r → cfg.Storage.Nodes ≠ some [] →
      ∃ d, NewBackupDaemonDeployment getenv cfg variant account = .ok d ∧
        d.ObjectMeta.Labels = Merge [BackupDaemonLabels, cfg.PodLabels] ∧
        d.Spec.Selector = some { MatchLabels := d.ObjectMeta.Labels } ∧
        d.Spec.Template.ObjectMeta.Labels = d.ObjectMeta.Labels ∧
        ∀ selector, d.Spec.Selector = some selector → ∀ k v,
          mapGet selector.MatchLabels k = some v →
          mapGet d.Spec.Template.ObjectMeta.Labels k = some v) ∧
    (∀ (cfg : MetricCollector A S R) (r : R),
      cfg.Resources = some r →
      ∃ d, NewMonitoringDeployment getenv cfg variant account = .ok d ∧
        d.ObjectMeta.Labels = Merge [MetricCollectorLabels, cfg.PodLabels] ∧
        d.Spec.Selector = some { MatchLabels := d.ObjectMeta.Labels } ∧
        d.Spec.Template.ObjectMeta.Labels = d.ObjectMeta.Labels ∧
        ∀ selector, d.Spec.Selector = some selector → ∀ k v,
          mapGet selector.MatchLabels k = some v →
          mapGet d.Spec.Template.ObjectMeta.Labels k = some v) := by
  constructor
  · intro cfg r hres hnodes
    rw [NewBackupDaemonDeployment_built getenv cfg _ _ r hres hnodes]
    refine ⟨_, rfl, rfl, rfl, rfl, ?_⟩
    intro selector hsel k v hk
    have hs : selector = { MatchLabels := Merge [BackupDaemonLabels, cfg.PodLabels] } :=
      (Option.some.inj hsel).symm
    rw [hs] at hk
    exact hk
  · intro cfg r hres
    rw [NewMonitoringDeployment_built getenv cfg _ _ r hres]
    refine ⟨_, rfl, rfl, rfl, rfl, ?_⟩
    intro selector hsel k v hk
    have hs : selector = { MatchLabels := Merge [MetricCollectorLabels, cfg.PodLabels] } :=
      (Option.some.inj hsel).symm
    rw [hs] at hk
    exact hk

/-- C24 at a backup daemon whose pod labels override "app" and add "tier". -/
theorem C24_labels_agree_witness :
    ∃ d, NewBackupDaemonDeployment demoEnv s3Daemon "gpdb" "sa" = .ok d ∧
      d.ObjectMeta.Labels =
        [("app", "x"), ("name", "postgres-backup-daemon"), ("tier", "db")] ∧
      d.Spec.Selector = some { MatchLabels := d.ObjectMeta.Labels } ∧
      d.Spec.Template.ObjectMeta.Labels = d.ObjectMeta.Labels :=
  match (C24_labels_agree demoEnv "gpdb" "sa").1 s3Daemon () rfl (by decide) with
  | ⟨d, h1, h2, h3, h4, _⟩ => ⟨d, h1, h2, h3, h4⟩

/-! ## Volumes and mounts -/

/-- C25: in the deployment built by `NewBackupDaemonDeployment` and in the one built by
`NewMonitoringDeployment`, whatever the storage type, the presence of `externalPv` and the
value of `influxDbHost`, every volume mount of the container names a volume declared in the
pod spec, no two declared volumes have the same name and no two mounts have the same path.
A deployment is built whenever the resources are present and, for the backup daemon, the
node list is not present-but-empty. -/
theorem C25_mounts_name_volumes {A S R : Type} (getenv : Env) (variant account : String) :
    (∀ (cfg : BackupDaemon A S R) (r : R),
      cfg.Resources = some r → cfg.Storage.Nodes ≠ some [] →
      ∃ d c, NewBackupDaemonDeployment getenv cfg variant account = .ok d ∧
        d.Spec.Template.Spec.Containers = [c] ∧
        (∀ m ∈ c.VolumeMounts, ∃ v ∈ d.Spec.Template.Spec.Volumes, v.Name = m.Name) ∧
        (d.Spec.Template.Spec.Volumes.map (fun v => v.Name)).Nodup ∧
        (c.VolumeMounts.map (fun m => m.MountPath)).Nodup) ∧
    (∀ (cfg : MetricCollector A S R) (r : R),
      cfg.Resources = some r →
      ∃ d c, NewMonitoringDeployment getenv cfg variant account = .ok d ∧
        d.Spec.Template.Spec.Containers = [c] ∧
        (∀ m ∈ c.VolumeMounts, ∃ v ∈ d.Spec.Template.Spec.Volumes, v.Name = m.Name) ∧
        (d.Spec.Template.Spec.Volumes.map (fun v => v.Name)).Nodup ∧
        (c.VolumeMounts.map (fun m => m.MountPath)).Nodup) := by
  constructor
  · intro cfg r hres hnodes
    rw [NewBackupDaemonDeployment_built getenv cfg _ _ r hres hnodes]
    refine ⟨_, _, rfl, rfl, ?_⟩
    have hname : (primaryVolume cfg.Storage.Type_).Name = "backup-data" := by
      by_cases ht : cfg.Storage.Type_ = "ephemeral" ∨ cfg.Storage.Type_ = "s3" <;>
        simp [primaryVolume, ht]
    rcases he : cfg.ExternalPv with _ | ext
    · simp [backupDaemonBuilt, backupDaemonDeploymentLiteral, he, hname]
    · simp [backupDaemonBuilt, backupDaemonDeploymentLiteral, he, hname,
        getExternalBackupVolume, getExternalBackupVolumeMount]
  · intro cfg r hres
    rw [NewMonitoringDeployment_built getenv cfg _ _ r hres]
    refine ⟨_, _, rfl, rfl, ?_⟩
    by_cases hi : cfg.InfluxDbHost = ""
    · simp [monitoringBuilt, monitoringDeploymentLiteral, hi]
    · simp [monitoringBuilt, monitoringDeploymentLiteral, hi, getInfluxConfigMapVolume,
        getInfluxConfigMapVolumeMount]

/-- C25 at a backup daemon with an "s3" storage and an external volume. -/
theorem C25_mounts_name_volumes_witness :
    ∃ d c, NewBackupDaemonDeployment demoEnv s3Daemon "gpdb" "sa" = .ok d ∧
      d.Spec.Template.Spec.Containers = [c] ∧
      (∀ m ∈ c.VolumeMounts, ∃ v ∈ d.Spec.Template.Spec.Volumes, v.Name = m.Name) ∧
      (d.Spec.Template.Spec.Volumes.map (fun v => v.Name)).Nodup ∧
      (c.VolumeMounts.map (fun m => m.MountPath)).Nodup :=
  (C25_mounts_name_volumes demoEnv "gpdb" "sa").1 s3Daemon () rfl (by decide)

/-! ## Totality of the backup daemon builder -/

/-- C26 does not hold of the code: for a config whose resources are present and whose node
list is present but empty, `NewBackupDaemonDeployment` returns no deployment; the test
`nodes != nil` lets the empty list through and `nodes[0]` panics with an index out of
range. -/
theorem C26_empty_nodes_panic :
    emptyNodesDaemon.Resources = some () ∧
    emptyNodesDaemon.Storage.Nodes = some [] ∧
    NewBackupDaemonDeployment demoEnv emptyNodesDaemon "patroni" "sa" =
      .error (.indexOutOfRange 0 0) :=
  ⟨rfl, rfl, rfl⟩

/-! ## SSL mode -/

/-- C27: in the deployment built by `NewBackupDaemonDeployment` and in the one built by
`NewMonitoringDeployment` the value of `PGSSLMODE` is the `sslMode` of the config when that
is not empty and "prefer" when it is empty, so it is never the empty string. A deployment
is built whenever the resources are present and, for the backup daemon, the node list is
not present-but-empty. -/
theorem C27_sslmode_default {A S R : Type} (getenv : Env) (variant account : String) :
    (∀ (cfg : BackupDaemon A S R) (r : R),
      cfg.Resources = some r → cfg.Storage.Nodes ≠ some [] →
      ∃ d c, NewBackupDaemonDeployment getenv cfg variant account = .ok d ∧
        d.Spec.Template.Spec.Containers = [c] ∧
        (cfg.SslMode ≠ "" → envValue c.Env "PGSSLMODE" = some cfg.SslMode) ∧
        (cfg.SslMode = "" → envValue c.Env "PGSSLMODE" = some "prefer") ∧
        envValue c.Env "PGSSLMODE" ≠ none ∧ envValue c.Env "PGSSLMODE" ≠ some "") ∧
    (∀ (cfg : MetricCollector A S R) (r : R),
      cfg.Resources = some r →
      ∃ d c, NewMonitoringDeployment getenv cfg variant account = .ok d ∧
        d.Spec.Template.Spec.Containers = [c] ∧
        (cfg.SslMode ≠ "" → envValue c.Env "PGSSLMODE" = some cfg.SslMode) ∧
        (cfg.SslMode = "" → envValue c.Env "PGSSLMODE" = some "prefer") ∧
        envValue c.Env "PGSSLMODE" ≠ none ∧ envValue c.Env "PGSSLMODE" ≠ some "") := by
  constructor
  · intro cfg r hres hnodes
    rw [NewBackupDaemonDeployment_built getenv cfg _ _ r hres hnodes]
    have hv : ∀ c : Container R,
        (backupDaemonBuilt getenv cfg variant account r).Spec.Template.Spec.Containers = [c] →
        envValue c.Env "PGSSLMODE" =
          some (if cfg.SslMode ≠ "" then cfg.SslMode else "prefer") := by
      intro c hc
      cases hc
      rfl
    refine ⟨_, _, rfl, rfl, ?_⟩
    rw [hv _ rfl]
    by_cases hs : cfg.SslMode = "" <;> simp [hs]
  · intro cfg r hres
    rw [NewMonitoringDeployment_built getenv cfg _ _ r hres]
    have hv : ∀ c : Container R,
        (monitoringBuilt getenv cfg variant account r).Spec.Template.Spec.Containers = [c] →
        envValue c.Env "PGSSLMODE" =
          some (if cfg.SslMode ≠ "" then cfg.SslMode else "prefer") := by
      intro c hc
      cases hc
      by_cases hp : cfg.MetricsProfile = "dev" <;>
        simp [monitoringBuilt, monitoringDeploymentLiteral, envValue, secretEnv, fieldEnv]
    refine ⟨_, _, rfl, rfl, ?_⟩
    rw [hv _ rfl]
    by_cases hs : cfg.SslMode = "" <;> simp [hs]

/-- C27 at a backup daemon with the SSL mode "require" and at a collector without one. -/
theorem C27_sslmode_default_witness :
    (∃ d c, NewBackupDaemonDeployment demoEnv flagsDaemon "gpdb" "sa" = .ok d ∧
      d.Spec.Template.Spec.Containers = [c] ∧
      envValue c.Env "PGSSLMODE" = some "require") ∧
    (∃ d c, NewMonitoringDeployment demoEnv devCollector "gpdb" "sa" = .ok d ∧
      d.Spec.Template.Spec.Containers = [c] ∧
      envValue c.Env "PGSSLMODE" = some "prefer") :=
  ⟨match (C27_sslmode_default demoEnv "gpdb" "sa").1 flagsDaemon () rfl (by decide) with
    | ⟨d, c, h1, h2, h3, _⟩ => ⟨d, c, h1, h2, h3 (by decide)⟩,
   match (C27_sslmode_default demoEnv "gpdb" "sa").2 devCollector () rfl with
    | ⟨d, c, h1, h2, _, h4, _⟩ => ⟨d, c, h1, h2, h4 rfl⟩⟩

end Pgskipper
